import Mathlib

/-!
# A-Player: the `VPlayerController` slideshow / video player

A shallow embedding of `src/a-player.js`.

* JavaScript numbers are `JSNum`: a finite value (an exact rational), the two
  infinities, or NaN.  Finite arithmetic is exact, so binary rounding of
  doubles is outside the model; division by zero, NaN and the infinities are
  inside it.  Signed zero is not distinguished.  Exact and double arithmetic
  part only where a product lies within a rounding error of a half-integer:
  for 1280x720 content in a 1352x700 target the exact scaled height is 760.5
  and `Math.round` gives 761, the double product is 760.4999999999999 and
  gives 760.  What is proved of `crop_resize` does not rest on which
  neighbour such a value rounds to.
* The controller object is the record `Player`.  The DOM objects it owns (the
  `video` element, the poster `img`) are sub-records, and the two observable
  effect streams are logs: `calls` (methods invoked on the video element) and
  `emitted` (jQuery notifications triggered).
* A JavaScript exception does not roll back assignments made before it, so an
  operation returns an `Outcome`: the object after a normal return (`done`)
  or the object as the exception left it (`threw`).
-/

namespace APlayer

/-! ## Numbers -/

/-- A JavaScript number. -/
inductive JSNum where
  | fin (q : ℚ)
  | pinf
  | ninf
  | nan
  deriving DecidableEq

namespace JSNum

/-- Sign of a rational as an integer in {-1, 0, 1}. -/
def sgn (q : ℚ) : Int := if 0 < q then 1 else if q < 0 then -1 else 0

/-- The infinity with the given (nonzero) sign, NaN for sign 0. -/
def ofSign (z : Int) : JSNum := if 0 < z then pinf else if z < 0 then ninf else nan

/-- JavaScript `a / b`. -/
def div : JSNum → JSNum → JSNum
  | fin a, fin b => if b = 0 then ofSign (sgn a) else fin (a / b)
  | fin _, pinf => fin 0
  | fin _, ninf => fin 0
  | pinf, fin b => if b < 0 then ninf else pinf
  | ninf, fin b => if b < 0 then pinf else ninf
  | _, _ => nan

/-- JavaScript `a * b`. -/
def mul : JSNum → JSNum → JSNum
  | fin a, fin b => fin (a * b)
  | fin a, pinf => ofSign (sgn a)
  | fin a, ninf => ofSign (- sgn a)
  | pinf, fin b => ofSign (sgn b)
  | ninf, fin b => ofSign (- sgn b)
  | pinf, pinf => pinf
  | ninf, ninf => pinf
  | pinf, ninf => ninf
  | ninf, pinf => ninf
  | _, _ => nan

/-- JavaScript `a - b`. -/
def sub : JSNum → JSNum → JSNum
  | fin a, fin b => fin (a - b)
  | fin _, pinf => ninf
  | fin _, ninf => pinf
  | pinf, fin _ => pinf
  | ninf, fin _ => ninf
  | pinf, ninf => pinf
  | ninf, pinf => ninf
  | _, _ => nan

/-- JavaScript `a >= b` (false as soon as one side is NaN). -/
def ge : JSNum → JSNum → Bool
  | fin a, fin b => decide (b ≤ a)
  | pinf, nan => false
  | pinf, _ => true
  | fin _, ninf => true
  | ninf, ninf => true
  | _, _ => false

/-- Truthiness of a number: `0` and `NaN` are falsy. -/
def truthy : JSNum → Bool
  | fin q => decide (q ≠ 0)
  | pinf => true
  | ninf => true
  | nan => false

/-- `Math.round` on a finite value: nearest integer, ties towards +infinity. -/
def roundQ (q : ℚ) : Int := ⌊q + 1 / 2⌋

/-- `Math.round`. -/
def round : JSNum → JSNum
  | fin q => fin (roundQ q)
  | x => x

end JSNum

/-! ## Data model -/

/-- One entry of `video_list` (the `videos` array of the scene source). -/
structure Scene where
  title : String
  project : String
  category : String
  poster_smartphone : String
  poster_tablet : String
  poster_desktop : String
  /-- `none` is `undefined`. -/
  video_h264 : Option String
  /-- `none` is `undefined`. -/
  video_webm : Option String
  deriving DecidableEq

/-- What the code reads from the browser: `$(window).width()`,
`$(window).height()` and the truthiness of `Modernizr.video`,
`Modernizr.video.h264`, `Modernizr.video.webm`. -/
structure Env where
  window_width : ℚ
  window_height : ℚ
  modernizr_video : Bool
  modernizr_h264 : Bool
  modernizr_webm : Bool
  deriving DecidableEq

/-- A CSS offset (`top`, `bottom`, `left`, `right`): `auto` or a length in px. -/
inductive CssVal where
  | auto
  | px (v : ℚ)
  deriving DecidableEq

/-- The layout box of an element as `crop_resize` sees it.  `videoWidth` and
`videoHeight` are the intrinsic resolution of a video (0 when unknown, and
always 0 for the poster image, where the property is `undefined`); `width` and
`height` are what `$(item).width()` and `$(item).height()` return. -/
structure Element where
  videoWidth : ℕ
  videoHeight : ℕ
  width : ℚ
  height : ℚ
  top : CssVal
  bottom : CssVal
  left : CssVal
  right : CssVal
  deriving DecidableEq

/-- A normalised `TimeRanges` object: the list of its (start, end) ranges. -/
abbrev TimeRanges := List (ℚ × ℚ)

/-- `ranges.end(index)`: the end of the range at `index`; `none` stands for the
`IndexSizeError` the DOM throws when the index is not below `ranges.length`
(`-1` included, which is what `length - 1` gives for an empty object). -/
def TimeRanges.end_ (r : TimeRanges) (index : Int) : Option ℚ :=
  if 0 ≤ index then (r.get? index.toNat).map Prod.snd else none

/-- The `video` element. -/
structure Video where
  src : String
  currentTime : ℚ
  duration : JSNum
  paused : Bool
  buffered : TimeRanges
  played : TimeRanges
  /-- jQuery `show()` / `hide()`. -/
  shown : Bool
  box : Element
  deriving DecidableEq

/-- The poster `img` element. -/
structure Poster where
  src : String
  /-- jQuery `show()` / `hide()`. -/
  shown : Bool
  box : Element
  deriving DecidableEq

/-- A method invoked on the video element, or an assignment to its
`currentTime`. -/
inductive VideoCall where
  | play
  | pause
  | seek (t : ℚ)
  deriving DecidableEq

/-- A notification triggered through jQuery. -/
inductive Notification where
  | next_loaded
  | prev_loaded
  | buffered
  | buffering
  | stop
  deriving DecidableEq

/-- The controller object (`this`). -/
structure Player where
  crop_width : Option ℚ
  crop_height : Option ℚ
  crop_vertical : String
  crop_horizontal : String
  video : Video
  poster : Poster
  is_buffering : Bool
  playable : Bool
  prev_time : ℚ
  loop : Bool
  repeat_ : Bool
  autoplay : Bool
  starting_video_id : Int
  current_id : Int
  /-- `none` is `undefined` (before the first `load_scene`). -/
  previous_id : Option Int
  /-- `video_list[current_id+1]` as read by `load_scene`: a scene or `undefined`. -/
  next_id : Option Scene
  video_list : List Scene
  title : Option String
  project : Option String
  category : Option String
  /-- Set by `on_progress`; `none` is `undefined`. -/
  current_time : Option ℚ
  duration : Option JSNum
  buffered : Option Int
  percentage : Option JSNum
  env : Env
  /-- Methods invoked on the video element, oldest first. -/
  calls : List VideoCall
  /-- Notifications triggered, oldest first. -/
  emitted : List Notification
  deriving DecidableEq

/-- Result of running a method: normal return, or an uncaught exception; in
both cases with the object as the method left it. -/
inductive Outcome where
  | done (s : Player)
  | threw (s : Player)
  deriving DecidableEq

/-- The object after the method ran. -/
def Outcome.state : Outcome → Player
  | .done s => s
  | .threw s => s

/-- Whether the method returned normally. -/
def Outcome.returned : Outcome → Bool
  | .done _ => true
  | .threw _ => false

/-- `video_list[i]`: the scene at index `i`, `undefined` outside the array. -/
def lookup (l : List Scene) (i : Int) : Option Scene :=
  if 0 ≤ i then l.get? i.toNat else none

/-! ## Scene manager -/

/-- `show_poster`. -/
def show_poster (s : Player) : Player :=
  { s with poster := { s.poster with shown := true } }

/-- `hide_poster`. -/
def hide_poster (s : Player) : Player :=
  { s with poster := { s.poster with shown := false } }

/-- `show_video`. -/
def show_video (s : Player) : Player :=
  { s with video := { s.video with shown := true } }

/-- `on_stop`: the handler of the `stop` notification. -/
def on_stop (s : Player) : Player := show_poster s

/-- `$(...).trigger(n)`: record the notification and run the handler the
constructor has delegated for it on the container.  `on_buffered`,
`on_buffering`, `on_next_loaded` and `on_prev_loaded` have empty bodies;
`on_stop` shows the poster (`stop` is triggered on the video element, which
lies inside the container, and bubbles up to it). -/
def trigger (s : Player) (n : Notification) : Player :=
  let s1 := { s with emitted := s.emitted ++ [n] }
  match n with
  | .stop => on_stop s1
  | _ => s1

/-- `VPlayerController.prototype.load_scene` for an integer `id` (so that
`parseInt(id, 10)` is `id`). -/
def load_scene (s : Player) (id : Int) : Outcome :=
  let s1 : Player :=
    { s with previous_id := some s.current_id
             next_id := lookup s.video_list (s.current_id + 1)
             current_id := id }
  match lookup s.video_list id with
  | none => .threw s1  -- `obj.title` on `undefined`: TypeError
  | some obj =>
    let s2 : Player :=
      { s1 with title := some obj.title
                project := some obj.project
                category := some obj.category }
    let s3 := { s2 with poster := { s2.poster with shown := false } }
    let width := s.env.window_width
    let psrc :=
      if width ≤ 1024 then obj.poster_smartphone
      else if width > 1024 ∧ width ≤ 1280 then obj.poster_tablet
      else obj.poster_desktop
    let s4 := { s3 with poster := { s3.poster with src := psrc } }
    if s.env.modernizr_video && s.env.modernizr_h264 && obj.video_h264.isSome then
      .done { s4 with video := { s4.video with src := obj.video_h264.getD "" }
                      playable := true }
    else if s.env.modernizr_video && s.env.modernizr_webm && obj.video_webm.isSome then
      .done { s4 with video := { s4.video with src := obj.video_webm.getD "" }
                      playable := true }
    else
      .done { s4 with video := { s4.video with src := "" }
                      playable := false }

/-- Run `k` after a call that returned; an exception propagates. -/
def Outcome.andThen (o : Outcome) (k : Player → Player) : Outcome :=
  match o with
  | .done s => .done (k s)
  | .threw s => .threw s

/-- `prev`. -/
def prev (s : Player) : Outcome :=
  (if s.current_id = 0 then load_scene s ((s.video_list.length : Int) - 1)
   else load_scene s (s.current_id - 1)).andThen
    (fun s1 => trigger s1 .prev_loaded)

/-- `next`. -/
def next (s : Player) : Outcome :=
  (if s.current_id = (s.video_list.length : Int) - 1 then load_scene s 0
   else load_scene s (s.current_id + 1)).andThen
    (fun s1 => trigger s1 .next_loaded)

/-! ## Playback operations

`video.play()` clears the element's `paused` flag and `video.pause()` sets it;
both are recorded in `calls`.  A callback is a function run on the object. -/

/-- `play(callback)`. -/
def play (s : Player) (callback : Option (Player → Player)) : Player :=
  if s.playable then
    let s1 := show_video s
    let s2 := { s1 with video := { s1.video with paused := false }
                        calls := s1.calls ++ [.play] }
    match callback with
    | some cb => cb s2
    | none => s2
  else s

/-- `pause(callback)`. -/
def pause (s : Player) (callback : Option (Player → Player)) : Player :=
  let s1 := { s with video := { s.video with paused := true }
                     calls := s.calls ++ [.pause] }
  match callback with
  | some cb => cb s1
  | none => s1

/-- The callback `stop` hands to `pause`: `this.video.currentTime = 0`. -/
def reset_time (s : Player) : Player :=
  { s with video := { s.video with currentTime := 0 }
           calls := s.calls ++ [.seek 0] }

/-- `stop(callback)`; the body never reads `callback`. -/
def stop (s : Player) (_callback : Option (Player → Player)) : Player :=
  let s1 :=
    if s.playable && decide (s.video.played.length ≠ 0) then pause s (some reset_time)
    else s
  trigger s1 .stop

/-- `on_ended`: the handler of the video element's `ended` event. -/
def on_ended (s : Player) : Outcome :=
  if s.loop then .done (play s none)
  else if s.repeat_ then next s
  else .done (stop s none)

/-! ## Playback-state monitor -/

/-- `on_progress`: the handler of the video element's `progress` event. -/
def on_progress (s : Player) : Outcome :=
  if s.playable then
    let s1 : Player :=
      { s with current_time := some s.video.currentTime
               duration := some (JSNum.round s.video.duration) }
    match TimeRanges.end_ s.video.buffered ((s.video.buffered.length : Int) - 1) with
    | none => .threw s1  -- IndexSizeError from `buffered.end`
    | some e =>
      let buffered : Int := JSNum.roundQ e
      let s2 : Player :=
        { s1 with
            buffered := some buffered
            percentage := some (JSNum.round (JSNum.div (.fin ((buffered : ℚ) * 100)) (JSNum.round s.video.duration))) }
      let current_time := s.video.currentTime
      if !s.video.paused then
        if current_time ≠ s.prev_time then
          .done { trigger s2 .buffered with prev_time := current_time }
        else if current_time ≠ 0 then
          .done (trigger s2 .buffering)
        else
          .done { s2 with prev_time := 0 }
      else
        if (buffered : ℚ) > current_time then
          .done (trigger s2 .buffered)
        else
          .done (trigger s2 .buffering)
  else .done s

/-! ## Layout engine -/

/-- The `options` argument of `crop_resize`; `none` is an absent key.  The
last four keys are the ones `$.extend(defaults, options)` would copy over the
computed defaults. -/
structure Options where
  crop_width : Option ℚ
  crop_height : Option ℚ
  crop_vertical : Option String
  crop_horizontal : Option String
  width : Option ℚ
  height : Option ℚ
  vertical : Option String
  horizontal : Option String

/-- The object `resize_options`. -/
structure ResizeOptions where
  width : ℚ
  height : ℚ
  vertical : String
  horizontal : String
  deriving DecidableEq

/-- `x ? x : d` for a number: absent and `0` are falsy. -/
def numOr (x : Option ℚ) (d : ℚ) : ℚ :=
  match x with
  | some q => if q ≠ 0 then q else d
  | none => d

/-- `x ? x : d` for a string: absent and the empty string are falsy. -/
def strOr (x : Option String) (d : String) : String :=
  match x with
  | some t => if t ≠ "" then t else d
  | none => d

/-- The first lines of `crop_resize`: `defaults`, then
`$.extend(defaults, options)`. -/
def resize_options (s : Player) (options : Option Options) : ResizeOptions :=
  match options with
  | some o =>
    let defaults : ResizeOptions :=
      { width := numOr o.crop_width s.env.window_width
        height := numOr o.crop_height s.env.window_height
        vertical := strOr o.crop_vertical "center"
        horizontal := strOr o.crop_horizontal "center" }
    { width := o.width.getD defaults.width
      height := o.height.getD defaults.height
      vertical := o.vertical.getD defaults.vertical
      horizontal := o.horizontal.getD defaults.horizontal }
  | none =>
    { width := numOr s.crop_width s.env.window_width
      height := numOr s.crop_height s.env.window_height
      vertical := strOr (some s.crop_vertical) "center"
      horizontal := strOr (some s.crop_horizontal) "center" }

/-- `item.width(v)`: jQuery ignores NaN, and a declaration that is not a
non-negative finite length is dropped by the browser. -/
def Element.setWidth (e : Element) (v : JSNum) : Element :=
  match v with
  | .fin q => if 0 ≤ q then { e with width := q } else e
  | _ => e

/-- `item.height(v)`, as `setWidth`. -/
def Element.setHeight (e : Element) (v : JSNum) : Element :=
  match v with
  | .fin q => if 0 ≤ q then { e with height := q } else e
  | _ => e

/-- The value a CSS offset takes when assigned `v + "px"`: a finite length is
stored, anything else ("NaNpx", "Infinitypx") is not a length and leaves the
previous value. -/
def CssVal.assign (old : CssVal) (v : JSNum) : CssVal :=
  match v with
  | .fin q => .px q
  | _ => old

/-- The global `width` of `crop_resize`: the intrinsic width of a video whose
`videoWidth` is truthy, else the rendered width `item.width()`. -/
def content_width (item : Element) : ℚ :=
  if item.videoWidth ≠ 0 then item.videoWidth else item.width

/-- The global `height` of `crop_resize`, chosen by the same test on
`videoWidth`. -/
def content_height (item : Element) : ℚ :=
  if item.videoWidth ≠ 0 then item.videoHeight else item.height

/-- The global `proportion` of `crop_resize`: the scale factor. -/
def proportion (item : Element) (ro : ResizeOptions) : JSNum :=
  let width : JSNum := .fin (content_width item)
  let height : JSNum := .fin (content_height item)
  let item_ratio := JSNum.div width height
  let viewport := JSNum.div (.fin ro.width) (.fin ro.height)
  if JSNum.ge viewport item_ratio then JSNum.div (.fin ro.width) width
  else JSNum.div (.fin ro.height) height

/-- The body of `crop_resize` once `resize_options` is known. -/
def crop_resize_with (item : Element) (ro : ResizeOptions) : Element :=
  let width : JSNum := .fin (content_width item)
  let height : JSNum := .fin (content_height item)
  let proportion := proportion item ro
  if JSNum.truthy proportion then
    let i1 := { item with top := .auto, bottom := .auto, left := .auto, right := .auto }
    let i2 := i1.setWidth (JSNum.round (JSNum.mul proportion width))
    let i3 := i2.setHeight (JSNum.round (JSNum.mul proportion height))
    let i4 :=
      if ro.horizontal = "left" then { i3 with left := .px 0 }
      else if ro.horizontal = "right" then { i3 with right := .px 0 }
      else
        let v := JSNum.div (JSNum.sub (.fin i3.width) (.fin ro.width)) (.fin (-2))
        { i3 with left := i3.left.assign v }
    if ro.vertical = "top" then { i4 with top := .px 0 }
    else if ro.vertical = "bottom" then { i4 with bottom := .px 0 }
    else
      let v := JSNum.div (JSNum.sub (.fin i4.height) (.fin ro.height)) (.fin (-2))
      { i4 with top := i4.top.assign v }
  else item

/-- `VPlayerController.prototype.crop_resize(item, options)`, on the layout
box of `item`. -/
def crop_resize (s : Player) (item : Element) (options : Option Options) : Element :=
  crop_resize_with item (resize_options s options)

/-- `VPlayerController.prototype.resize`. -/
def resize (s : Player) : Player :=
  let s1 := { s with video := { s.video with box := crop_resize s s.video.box none } }
  { s1 with poster := { s1.poster with box := crop_resize s1 s1.poster.box none } }

/-- The element `item` with size `w`x`h` and the offsets of the anchors of
`ro` for that size: what the second half of `crop_resize` produces once the
size is applied. -/
def placed (item : Element) (ro : ResizeOptions) (w h : ℚ) : Element :=
  { videoWidth := item.videoWidth
    videoHeight := item.videoHeight
    width := w
    height := h
    top := if ro.vertical = "top" then .px 0
      else if ro.vertical = "bottom" then .auto
      else .px ((h - ro.height) / (-2))
    bottom := if ro.vertical = "bottom" then .px 0 else .auto
    left := if ro.horizontal = "left" then .px 0
      else if ro.horizontal = "right" then .auto
      else .px ((w - ro.width) / (-2))
    right := if ro.horizontal = "right" then .px 0 else .auto }

/-- The argument `crop_resize` hands to `item.width(...)`:
`Math.round(proportion * width)`. -/
def scaled_width (item : Element) (ro : ResizeOptions) : JSNum :=
  JSNum.round (JSNum.mul (proportion item ro) (.fin (content_width item)))

/-- The argument `crop_resize` hands to `item.height(...)`:
`Math.round(proportion * height)`. -/
def scaled_height (item : Element) (ro : ResizeOptions) : JSNum :=
  JSNum.round (JSNum.mul (proportion item ro) (.fin (content_height item)))

/-- The offset the specification gives a center-anchored element, computed
from the scaled size that is handed to the setter:
`-(scaled size - target size)/2`, written `(target - scaled)/2`. -/
def spec_center_offset (scaled target : JSNum) : JSNum :=
  JSNum.div (JSNum.sub target scaled) (.fin 2)

/-! ## Construction -/

/-- The configuration object `conf`, for the pre-fetched (`video_list`) path. -/
structure Conf where
  crop_width : Option ℚ
  crop_height : Option ℚ
  crop_vertical : Option String
  crop_horizontal : Option String
  loop : Bool
  repeat_ : Bool
  autoplay : Bool
  starting_video_id : Option Int
  video_list : List Scene

/-- The value given to `this.starting_video_id`:
`conf.starting_video_id ? parseInt(conf.starting_video_id, 10) : 0`. -/
def starting_id (conf : Conf) : Int :=
  match conf.starting_video_id with
  | some i => if i ≠ 0 then i else 0
  | none => 0

/-- The object as the constructor has filled it when it reaches its call of
`load_scene`. -/
def initial (conf : Conf) (env : Env) (video : Video) (poster : Poster) : Player :=
  { crop_width := match conf.crop_width with
      | some q => if q ≠ 0 then some q else none
      | none => none
    crop_height := match conf.crop_height with
      | some q => if q ≠ 0 then some q else none
      | none => none
    crop_vertical := strOr conf.crop_vertical "center"
    crop_horizontal := strOr conf.crop_horizontal "center"
    video := video
    poster := poster
    is_buffering := true
    playable := false
    prev_time := 0
    loop := conf.loop
    repeat_ := conf.repeat_
    autoplay := conf.autoplay
    starting_video_id := starting_id conf
    current_id := starting_id conf
    previous_id := none
    next_id := none
    video_list := conf.video_list
    title := none
    project := none
    category := none
    current_time := none
    duration := none
    buffered := none
    percentage := none
    env := env
    calls := []
    emitted := [] }

/-- The constructor `VPlayerController(conf)` when `conf.video_list` is given,
run against the `video` and `img` elements found in the container: the fields
are filled, `load_scene(this.starting_video_id)` runs, the poster is hidden.
An exception in `load_scene` leaves the constructor at that point. -/
def VPlayerController (conf : Conf) (env : Env) (video : Video) (poster : Poster) : Outcome :=
  (load_scene (initial conf env video poster) (starting_id conf)).andThen hide_poster

/-! ## Concrete objects

A three-scene list, a browser environment and freshly created elements, used
to evaluate the operations on explicit inputs. -/

/-- A scene with an h264 source only. -/
def scene0 : Scene :=
  { title := "Intro", project := "Demo", category := "reel"
    poster_smartphone := "intro_s.jpg", poster_tablet := "intro_t.jpg"
    poster_desktop := "intro_d.jpg"
    video_h264 := some "intro.mp4", video_webm := none }

/-- A scene with a webm source only. -/
def scene1 : Scene :=
  { title := "Middle", project := "Demo", category := "reel"
    poster_smartphone := "mid_s.jpg", poster_tablet := "mid_t.jpg"
    poster_desktop := "mid_d.jpg"
    video_h264 := none, video_webm := some "mid.webm" }

/-- A scene without any video source. -/
def scene2 : Scene :=
  { title := "Still", project := "Demo", category := "photo"
    poster_smartphone := "still_s.jpg", poster_tablet := "still_t.jpg"
    poster_desktop := "still_d.jpg"
    video_h264 := none, video_webm := none }

/-- An 800x600 window in a browser that plays h264 but not webm. -/
def env0 : Env :=
  { window_width := 800, window_height := 600
    modernizr_video := true, modernizr_h264 := true, modernizr_webm := false }

/-- A video element before any resource is loaded. -/
def video0 : Video :=
  { src := "", currentTime := 0, duration := .nan, paused := true
    buffered := [], played := [], shown := true
    box := { videoWidth := 0, videoHeight := 0, width := 300, height := 150
             top := .auto, bottom := .auto, left := .auto, right := .auto } }

/-- A poster image element whose picture is 1920x1080. -/
def poster0 : Poster :=
  { src := "", shown := true
    box := { videoWidth := 0, videoHeight := 0, width := 1920, height := 1080
             top := .auto, bottom := .auto, left := .auto, right := .auto } }

/-- A configuration with the three scenes and every option left out. -/
def conf0 : Conf :=
  { crop_width := none, crop_height := none
    crop_vertical := none, crop_horizontal := none
    loop := false, repeat_ := false, autoplay := false
    starting_video_id := none
    video_list := [scene0, scene1, scene2] }

/-- The controller that `new VPlayerController(conf0)` builds. -/
def player0 : Player := (VPlayerController conf0 env0 video0 poster0).state

/-- The controller of `player0` while its video plays with nothing buffered
yet (the `buffered` object is empty, the time is 0), the previous sample having
been taken at 5 seconds. -/
def playing_unbuffered : Player :=
  { player0 with video := { player0.video with paused := false }, prev_time := 5 }

/-- The controller of `player0` paused at 10.2 seconds with the single range
0 to 10.4 seconds buffered. -/
def paused_near_end : Player :=
  { player0 with
      video := { player0.video with currentTime := 51 / 5, buffered := [(0, 52 / 5)] } }

/-- The controller of `player0` paused at 3 seconds with the single range
0 to 10 seconds buffered. -/
def paused_buffered : Player :=
  { player0 with
      video := { player0.video with currentTime := 3, buffered := [(0, 10)] } }

/-- The controller of `player0` once the video's metadata gives 1280x720 as
its intrinsic resolution. -/
def player_hd : Player :=
  { player0 with
      video := { player0.video with
        box := { player0.video.box with videoWidth := 1280, videoHeight := 720 } } }

/-- The controller of `player0` while its video, played from 0 to 5 seconds,
is still playing. -/
def played_player : Player :=
  { player0 with
      video := { player0.video with
        paused := false, currentTime := 5, buffered := [(0, 10)], played := [(0, 5)] } }

/-- A controller that is not playable although its video element has played
5 seconds and is still playing (a source given in the page's markup). -/
def unplayable_played : Player :=
  { played_player with playable := false }

/-- The controller of `player0` after `load_scene(2)`: scene 2 has no video
source, so `playable` is false. -/
def unplayable : Player := (load_scene player0 2).state

/-- An image element whose picture has not loaded: its box is 0x0 and no
offset is set. -/
def unloaded_img : Element :=
  { videoWidth := 0, videoHeight := 0, width := 0, height := 0
    top := .auto, bottom := .auto, left := .auto, right := .auto }

/-- An element of width 0 and height 1080, placed 10px from the bottom and
20px from the right. -/
def zero_width_item : Element :=
  { videoWidth := 0, videoHeight := 0, width := 0, height := 1080
    top := .auto, bottom := .px 10, left := .auto, right := .px 20 }

/-! ## Histories

The calls and events a controller goes through, as a list run in order.  An
exception (in a call or in an event handler) ends that step only: the object
stays as the step left it and the next step runs on it. -/

/-- One step of a history: a call of the public interface (callbacks left
out) or an event delivered by the browser. -/
inductive Op where
  | load_scene (id : Int)
  | next
  | prev
  | ended
  | progress
  | play
  | pause
  | stop
  | resize
  deriving DecidableEq

/-- The object after one step. -/
def Op.run (s : Player) : Op → Player
  | .load_scene id => (APlayer.load_scene s id).state
  | .next => (APlayer.next s).state
  | .prev => (APlayer.prev s).state
  | .ended => (on_ended s).state
  | .progress => (on_progress s).state
  | .play => APlayer.play s none
  | .pause => APlayer.pause s none
  | .stop => APlayer.stop s none
  | .resize => APlayer.resize s

/-- The object after a history. -/
def run (s : Player) (ops : List Op) : Player := ops.foldl Op.run s

/-- A step that names a scene names one of the `n` scenes of the list. -/
def Op.inRange (n : Nat) : Op → Bool
  | .load_scene id => decide (0 ≤ id ∧ id < n)
  | _ => true

/-- The current id indexes a scene. -/
def current_id_valid (s : Player) : Prop :=
  0 ≤ s.current_id ∧ s.current_id < s.video_list.length

/-! # Verification -/

/-! ## Scene navigation -/

theorem lookup_isSome_iff (l : List Scene) (i : Int) :
    (lookup l i).isSome = true ↔ 0 ≤ i ∧ i < l.length := by
  unfold lookup
  split
  · rename_i h
    simp only [h, true_and]
    rw [Option.isSome_iff_ne_none, Ne, List.get?_eq_none]
    omega
  · rename_i h
    simp [h]

theorem lookup_eq_none_iff (l : List Scene) (i : Int) :
    lookup l i = none ↔ ¬ (0 ≤ i ∧ i < l.length) := by
  rw [← lookup_isSome_iff]
  cases lookup l i <;> simp

@[simp] theorem trigger_current_id (s : Player) (n : Notification) :
    (trigger s n).current_id = s.current_id := by
  cases n <;> rfl

@[simp] theorem trigger_video_list (s : Player) (n : Notification) :
    (trigger s n).video_list = s.video_list := by
  cases n <;> rfl

/-- `load_scene` stores the id it is given, whether or not a scene has it. -/
theorem load_scene_current_id (s : Player) (id : Int) :
    (load_scene s id).state.current_id = id := by
  unfold load_scene
  cases lookup s.video_list id with
  | none => rfl
  | some obj =>
    simp only
    split_ifs <;> rfl

theorem load_scene_video_list (s : Player) (id : Int) :
    (load_scene s id).state.video_list = s.video_list := by
  unfold load_scene
  cases lookup s.video_list id with
  | none => rfl
  | some obj =>
    simp only
    split_ifs <;> rfl

/-- `load_scene` returns exactly when the id indexes a scene. -/
theorem load_scene_returned_iff (s : Player) (id : Int) :
    (load_scene s id).returned = true ↔ 0 ≤ id ∧ id < s.video_list.length := by
  rw [← lookup_isSome_iff]
  unfold load_scene
  cases lookup s.video_list id with
  | none => simp [Outcome.returned]
  | some obj =>
    simp only
    split_ifs <;> simp [Outcome.returned]

@[simp] theorem andThen_returned (o : Outcome) (k : Player → Player) :
    (o.andThen k).returned = o.returned := by
  cases o <;> rfl

theorem andThen_trigger_current_id (o : Outcome) (n : Notification) :
    (o.andThen (fun s1 => trigger s1 n)).state.current_id = o.state.current_id := by
  cases o <;> simp [Outcome.andThen, Outcome.state]

theorem andThen_trigger_video_list (o : Outcome) (n : Notification) :
    (o.andThen (fun s1 => trigger s1 n)).state.video_list = o.state.video_list := by
  cases o <;> simp [Outcome.andThen, Outcome.state]

theorem next_current_id (s : Player) :
    (next s).state.current_id =
      if s.current_id = (s.video_list.length : Int) - 1 then 0 else s.current_id + 1 := by
  unfold next
  rw [andThen_trigger_current_id]
  split_ifs <;> exact load_scene_current_id _ _

theorem prev_current_id (s : Player) :
    (prev s).state.current_id =
      if s.current_id = 0 then (s.video_list.length : Int) - 1 else s.current_id - 1 := by
  unfold prev
  rw [andThen_trigger_current_id]
  split_ifs <;> exact load_scene_current_id _ _

theorem next_returned_iff (s : Player) :
    (next s).returned = true ↔
      (if s.current_id = (s.video_list.length : Int) - 1 then s.video_list ≠ []
       else 0 ≤ s.current_id + 1 ∧ s.current_id + 1 < s.video_list.length) := by
  unfold next
  rw [andThen_returned]
  split_ifs
  · rw [load_scene_returned_iff]
    cases s.video_list <;> simp
  · rw [load_scene_returned_iff]

/-- C1: with `n` scenes and current id `K`, `0 ≤ K < n`, both `next()` and
`prev()` return, `next()` leaves the current id at `K+1` (at `0` from the last
scene) and `prev()` at `K-1` (at `n-1` from scene `0`); these are `(K+1) mod n`
and `(K-1) mod n`. -/
theorem next_prev_wraparound (s : Player) (K : Int)
    (hK0 : 0 ≤ K) (hK : K < s.video_list.length) (hc : s.current_id = K) :
    ((next s).returned = true ∧ (prev s).returned = true) ∧
    (K < (s.video_list.length : Int) - 1 → (next s).state.current_id = K + 1) ∧
    (K = (s.video_list.length : Int) - 1 → (next s).state.current_id = 0) ∧
    (0 < K → (prev s).state.current_id = K - 1) ∧
    (K = 0 → (prev s).state.current_id = (s.video_list.length : Int) - 1) ∧
    (next s).state.current_id = (K + 1) % (s.video_list.length : Int) ∧
    (prev s).state.current_id = (K - 1) % (s.video_list.length : Int) := by
  subst hc
  have hne : s.video_list ≠ [] := by
    intro h
    rw [h] at hK
    simp at hK
    omega
  refine ⟨⟨?_, ?_⟩, ?_, ?_, ?_, ?_, ?_, ?_⟩
  · rw [next_returned_iff]
    split_ifs
    · exact hne
    · omega
  · unfold prev
    rw [andThen_returned]
    split_ifs <;> rw [load_scene_returned_iff] <;> omega
  · intro h
    rw [next_current_id, if_neg (by omega)]
  · intro h
    rw [next_current_id, if_pos h]
  · intro h
    rw [prev_current_id, if_neg (by omega)]
  · intro h
    rw [prev_current_id, if_pos h]
  · rw [next_current_id]
    split_ifs with h
    · rw [h]
      simp
    · rw [Int.emod_eq_of_lt (by omega) (by omega)]
  · rw [prev_current_id]
    split_ifs with h
    · rw [h]
      have : ((0 : Int) - 1) % (s.video_list.length : Int)
          = ((s.video_list.length : Int) - 1) % (s.video_list.length : Int) := by
        rw [show ((s.video_list.length : Int) - 1) = ((0 : Int) - 1) + (s.video_list.length : Int) by ring]
        exact (Int.add_emod_self).symm
      rw [this, Int.emod_eq_of_lt (by omega) (by omega)]
    · rw [Int.emod_eq_of_lt (by omega) (by omega)]

/-- The witness of C1: from the last of three scenes `next()` wraps to scene 0,
and from scene 0 `prev()` wraps to scene 2. -/
theorem next_prev_wraparound_witness :
    (next { player0 with current_id := 2 }).state.current_id = 0 ∧
    (prev player0).state.current_id = 2 :=
  ⟨(next_prev_wraparound { player0 with current_id := 2 } 2 (by decide) (by decide) rfl).2.2.1
      (by decide),
   (next_prev_wraparound player0 0 (by decide) (by decide) rfl).2.2.2.2.1 rfl⟩

/-! ## The current id along a history -/

@[simp] theorem play_current_id (s : Player) : (play s none).current_id = s.current_id := by
  unfold play show_video
  split_ifs <;> rfl

@[simp] theorem play_video_list (s : Player) : (play s none).video_list = s.video_list := by
  unfold play show_video
  split_ifs <;> rfl

@[simp] theorem pause_current_id (s : Player) : (pause s none).current_id = s.current_id := rfl

@[simp] theorem pause_video_list (s : Player) : (pause s none).video_list = s.video_list := rfl

@[simp] theorem stop_current_id (s : Player) (cb : Option (Player → Player)) :
    (stop s cb).current_id = s.current_id := by
  unfold stop
  simp only [trigger_current_id]
  split_ifs <;> rfl

@[simp] theorem stop_video_list (s : Player) (cb : Option (Player → Player)) :
    (stop s cb).video_list = s.video_list := by
  unfold stop
  simp only [trigger_video_list]
  split_ifs <;> rfl

@[simp] theorem resize_current_id (s : Player) : (resize s).current_id = s.current_id := rfl

@[simp] theorem resize_video_list (s : Player) : (resize s).video_list = s.video_list := rfl

@[simp] theorem on_progress_current_id (s : Player) :
    (on_progress s).state.current_id = s.current_id := by
  unfold on_progress
  by_cases hp : s.playable = true
  · rw [if_pos hp]
    cases TimeRanges.end_ s.video.buffered ((s.video.buffered.length : Int) - 1) with
    | none => rfl
    | some e =>
      simp only
      split_ifs <;> simp [Outcome.state]
  · rw [if_neg hp]
    rfl

@[simp] theorem on_progress_video_list (s : Player) :
    (on_progress s).state.video_list = s.video_list := by
  unfold on_progress
  by_cases hp : s.playable = true
  · rw [if_pos hp]
    cases TimeRanges.end_ s.video.buffered ((s.video.buffered.length : Int) - 1) with
    | none => rfl
    | some e =>
      simp only
      split_ifs <;> simp [Outcome.state]
  · rw [if_neg hp]
    rfl

theorem next_video_list (s : Player) : (next s).state.video_list = s.video_list := by
  unfold next
  rw [andThen_trigger_video_list]
  split_ifs <;> exact load_scene_video_list _ _

theorem prev_video_list (s : Player) : (prev s).state.video_list = s.video_list := by
  unfold prev
  rw [andThen_trigger_video_list]
  split_ifs <;> exact load_scene_video_list _ _

theorem on_ended_video_list (s : Player) : (on_ended s).state.video_list = s.video_list := by
  unfold on_ended
  split_ifs
  · simp [Outcome.state]
  · exact next_video_list s
  · simp [Outcome.state]

/-- Every step keeps the scene list. -/
theorem step_video_list (s : Player) (op : Op) : (op.run s).video_list = s.video_list := by
  cases op <;> simp [Op.run, load_scene_video_list, next_video_list, prev_video_list,
    on_ended_video_list]

theorem next_current_id_valid (s : Player) (h : current_id_valid s) :
    current_id_valid (next s).state := by
  unfold current_id_valid at *
  rw [next_video_list, next_current_id]
  split_ifs <;> omega

theorem prev_current_id_valid (s : Player) (h : current_id_valid s) :
    current_id_valid (prev s).state := by
  unfold current_id_valid at *
  rw [prev_video_list, prev_current_id]
  split_ifs <;> omega

theorem on_ended_current_id_valid (s : Player) (h : current_id_valid s) :
    current_id_valid (on_ended s).state := by
  unfold on_ended
  split_ifs
  · simpa [Outcome.state, current_id_valid] using h
  · exact next_current_id_valid s h
  · simpa [Outcome.state, current_id_valid] using h

/-- A step that names only scenes of the list keeps the current id valid. -/
theorem step_current_id_valid (s : Player) (op : Op)
    (hop : op.inRange s.video_list.length = true) (h : current_id_valid s) :
    current_id_valid (op.run s) := by
  cases op with
  | load_scene id =>
    simp only [Op.inRange, decide_eq_true_eq] at hop
    simp only [Op.run, current_id_valid, load_scene_current_id, load_scene_video_list]
    exact hop
  | next => exact next_current_id_valid s h
  | prev => exact prev_current_id_valid s h
  | ended => exact on_ended_current_id_valid s h
  | progress => simpa [Op.run, current_id_valid] using h
  | play => simpa [Op.run, current_id_valid] using h
  | pause => simpa [Op.run, current_id_valid] using h
  | stop => simpa [Op.run, current_id_valid] using h
  | resize => simpa [Op.run, current_id_valid] using h

theorem run_current_id_valid (ops : List Op) (s : Player)
    (hops : ∀ op ∈ ops, op.inRange s.video_list.length = true) (h : current_id_valid s) :
    current_id_valid (run s ops) ∧ (run s ops).video_list = s.video_list := by
  induction ops generalizing s with
  | nil => exact ⟨h, rfl⟩
  | cons op rest ih =>
    have h1 := step_current_id_valid s op (hops op (List.mem_cons_self _ _)) h
    have h2 := step_video_list s op
    have := ih (op.run s) (by
      intro o ho
      rw [h2]
      exact hops o (List.mem_cons_of_mem _ ho)) h1
    simp only [run, List.foldl_cons] at this ⊢
    exact ⟨this.1, this.2.trans h2⟩

/-- The constructor stores `starting_video_id` (0 when absent) as the current
id, and returns exactly when that id indexes a scene of `conf.video_list`. -/
theorem VPlayerController_spec (conf : Conf) (env : Env) (video : Video) (poster : Poster) :
    (VPlayerController conf env video poster).state.current_id = conf.starting_video_id.getD 0 ∧
    (VPlayerController conf env video poster).state.video_list = conf.video_list ∧
    ((VPlayerController conf env video poster).returned = true ↔
      0 ≤ conf.starting_video_id.getD 0 ∧
        conf.starting_video_id.getD 0 < conf.video_list.length) := by
  have hstart : starting_id conf = conf.starting_video_id.getD 0 := by
    unfold starting_id
    cases conf.starting_video_id with
    | none => rfl
    | some i =>
      by_cases hi : i = 0 <;> simp [hi]
  unfold VPlayerController
  rw [hstart]
  generalize hp : initial conf env video poster = p
  have hl : p.video_list = conf.video_list := by rw [← hp]; rfl
  have h1 := load_scene_current_id p (conf.starting_video_id.getD 0)
  have h2 := load_scene_video_list p (conf.starting_video_id.getD 0)
  have h3 := load_scene_returned_iff p (conf.starting_video_id.getD 0)
  rw [hl] at h2 h3
  cases hr : load_scene p (conf.starting_video_id.getD 0) with
  | done s1 =>
    rw [hr] at h1 h2 h3
    exact ⟨h1, h2, h3⟩
  | threw s1 =>
    rw [hr] at h1 h2 h3
    exact ⟨h1, h2, h3⟩

/-- C2 (amended): a construction whose `starting_video_id` indexes a scene
succeeds, and after any history of `load_scene(id)` with `0 ≤ id < scene_count`,
`next()`, `prev()`, end-of-media and progress events, `play()`, `pause()`,
`stop()` and `resize()`, the current id still indexes a scene of the unchanged
list. -/
theorem current_id_valid_along_valid_history (conf : Conf) (env : Env) (video : Video)
    (poster : Poster) (ops : List Op)
    (hstart : 0 ≤ conf.starting_video_id.getD 0 ∧
      conf.starting_video_id.getD 0 < conf.video_list.length)
    (hops : ∀ op ∈ ops, op.inRange conf.video_list.length = true) :
    ∃ s0, VPlayerController conf env video poster = .done s0 ∧
      (0 ≤ (run s0 ops).current_id ∧
        (run s0 ops).current_id < (run s0 ops).video_list.length) ∧
      (run s0 ops).video_list = conf.video_list := by
  obtain ⟨h1, h2, h3⟩ := VPlayerController_spec conf env video poster
  cases hr : VPlayerController conf env video poster with
  | threw s1 =>
    rw [hr] at h3
    exact absurd (h3.mpr hstart) (by simp [Outcome.returned])
  | done s0 =>
    rw [hr] at h1 h2
    simp only [Outcome.state] at h1 h2
    refine ⟨s0, rfl, ?_⟩
    have hv : current_id_valid s0 := by
      unfold current_id_valid
      rw [h1, h2]
      exact hstart
    have := run_current_id_valid ops s0 (by rw [h2]; exact hops) hv
    exact ⟨this.1, this.2.trans h2⟩

/-- The witness of C2 (amended): the three-scene controller after
`load_scene(2)`, `next()`, `prev()`, an end-of-media event and `prev()`. -/
theorem current_id_valid_along_valid_history_witness :
    ∃ s0, VPlayerController conf0 env0 video0 poster0 = .done s0 ∧
      (0 ≤ (run s0 [.load_scene 2, .next, .prev, .ended, .prev]).current_id ∧
        (run s0 [.load_scene 2, .next, .prev, .ended, .prev]).current_id <
          (run s0 [.load_scene 2, .next, .prev, .ended, .prev]).video_list.length) ∧
      (run s0 [.load_scene 2, .next, .prev, .ended, .prev]).video_list = conf0.video_list :=
  current_id_valid_along_valid_history conf0 env0 video0 poster0
    [.load_scene 2, .next, .prev, .ended, .prev] (by decide) (by decide)

/-- C2 as stated fails: the three-scene controller is built without error, and
the single call `load_scene(7)` (likewise `load_scene(-1)`) leaves the current
id at 7 (at -1) with three scenes in the list; the call then throws. -/
theorem load_scene_out_of_range_leaves_invalid_id :
    (VPlayerController conf0 env0 video0 poster0).returned = true ∧
    conf0.video_list ≠ [] ∧
    (run player0 [.load_scene 7]).current_id = 7 ∧
    (run player0 [.load_scene (-1)]).current_id = -1 ∧
    (run player0 [.load_scene 7]).video_list.length = 3 ∧
    (load_scene player0 7).returned = false ∧
    ¬ current_id_valid (run player0 [.load_scene 7]) ∧
    ¬ current_id_valid (run player0 [.load_scene (-1)]) := by
  refine ⟨by decide, by decide, by decide, by decide, by decide, by decide, ?_, ?_⟩
  · unfold current_id_valid
    decide
  · unfold current_id_valid
    decide

/-! ## Playback-state monitor -/

/-- `buffered.end(buffered.length - 1)` is the end of the last range, and
throws exactly when there is no range. -/
theorem end_last (r : TimeRanges) :
    TimeRanges.end_ r ((r.length : Int) - 1) = r.getLast?.map Prod.snd := by
  unfold TimeRanges.end_
  cases r with
  | nil => simp
  | cons a l =>
    have h0 : (0 : Int) ≤ ((a :: l).length : Int) - 1 := by
      simp
    rw [if_pos h0, List.getLast?_eq_getElem?]
    congr 2
    simp

theorem end_last_eq_none_iff (r : TimeRanges) :
    TimeRanges.end_ r ((r.length : Int) - 1) = none ↔ r = [] := by
  rw [end_last]
  cases r with
  | nil => simp
  | cons a l => simp [List.getLast?_cons_cons, List.getLast?_eq_getLast]

/-- With nothing buffered the handler throws at its read of `buffered.end`:
no notification is triggered and `prev_time` keeps its value. -/
theorem on_progress_unbuffered (s : Player) (hp : s.playable = true)
    (hb : s.video.buffered = []) :
    (on_progress s).returned = false ∧
    (on_progress s).state.emitted = s.emitted ∧
    (on_progress s).state.prev_time = s.prev_time := by
  unfold on_progress
  rw [if_pos hp, (end_last_eq_none_iff _).mpr hb]
  exact ⟨rfl, rfl, rfl⟩

/-- One sample while playing, the last buffered range ending at `e`: a time
that differs from `prev_time` emits `buffered` and becomes `prev_time`; an
equal nonzero time emits `buffering`; an equal zero time emits nothing. -/
theorem on_progress_playing (s : Player) (e : ℚ) (hp : s.playable = true)
    (hpl : s.video.paused = false)
    (he : TimeRanges.end_ s.video.buffered ((s.video.buffered.length : Int) - 1) = some e) :
    (on_progress s).returned = true ∧
    (s.video.currentTime ≠ s.prev_time →
      (on_progress s).state.emitted = s.emitted ++ [.buffered] ∧
      (on_progress s).state.prev_time = s.video.currentTime) ∧
    (s.video.currentTime = s.prev_time → s.video.currentTime ≠ 0 →
      (on_progress s).state.emitted = s.emitted ++ [.buffering] ∧
      (on_progress s).state.prev_time = s.prev_time) ∧
    (s.video.currentTime = s.prev_time → s.video.currentTime = 0 →
      (on_progress s).state.emitted = s.emitted ∧
      (on_progress s).state.prev_time = 0) := by
  unfold on_progress
  rw [if_pos hp, he]
  simp only [hpl, Bool.not_false, if_true]
  refine ⟨?_, ?_, ?_, ?_⟩
  · split_ifs <;> rfl
  · intro h
    rw [if_pos h]
    exact ⟨rfl, rfl⟩
  · intro h h0
    rw [if_neg (not_not.mpr h), if_pos h0]
    exact ⟨rfl, rfl⟩
  · intro h h0
    rw [if_neg (not_not.mpr h), if_neg (not_not.mpr h0)]
    exact ⟨rfl, rfl⟩

theorem on_progress_paused_aux (s : Player) (e : ℚ) (hp : s.playable = true)
    (hpl : s.video.paused = true)
    (he : TimeRanges.end_ s.video.buffered ((s.video.buffered.length : Int) - 1) = some e) :
    (on_progress s).returned = true ∧
    (on_progress s).state.emitted =
      s.emitted ++ [if s.video.currentTime < (JSNum.roundQ e : ℚ) then .buffered else .buffering] ∧
    (on_progress s).state.prev_time = s.prev_time := by
  unfold on_progress
  rw [if_pos hp, he]
  simp only [hpl, Bool.not_true, Bool.false_eq_true, if_false, gt_iff_lt]
  split_ifs <;> exact ⟨rfl, rfl, rfl⟩

/-- `Math.round(q)` is the integer `z` with `z - 1/2 ≤ q < z + 1/2`. -/
theorem roundQ_eq_iff (q : ℚ) (z : Int) :
    JSNum.roundQ q = z ↔ (z : ℚ) - 1 / 2 ≤ q ∧ q < (z : ℚ) + 1 / 2 := by
  unfold JSNum.roundQ
  rw [Int.floor_eq_iff]
  constructor
  · rintro ⟨h1, h2⟩
    constructor <;> linarith
  · rintro ⟨h1, h2⟩
    constructor <;> linarith

theorem on_progress_playable (s : Player) :
    (on_progress s).state.playable = s.playable := by
  unfold on_progress
  by_cases hp : s.playable = true
  · rw [if_pos hp]
    cases TimeRanges.end_ s.video.buffered ((s.video.buffered.length : Int) - 1) with
    | none => rfl
    | some e =>
      simp only
      split_ifs <;> simp [Outcome.state, trigger]
  · rw [if_neg hp]
    rfl

/-- After a sample taken while playing, `prev_time` is the sampled time. -/
theorem on_progress_playing_prev_time (s : Player) (e : ℚ) (hp : s.playable = true)
    (hpl : s.video.paused = false)
    (he : TimeRanges.end_ s.video.buffered ((s.video.buffered.length : Int) - 1) = some e) :
    (on_progress s).state.prev_time = s.video.currentTime := by
  obtain ⟨_, h1, h2, h3⟩ := on_progress_playing s e hp hpl he
  by_cases h : s.video.currentTime = s.prev_time
  · by_cases h0 : s.video.currentTime = 0
    · rw [(h3 h h0).2, h0]
    · rw [(h2 h h0).2, h]
  · exact (h1 h).2

/-- Two consecutive samples while playing, something being buffered at both:
the second sample, taken on the video as the browser shows it then (`v`), emits
`buffering` when its time equals the first sample's and is not 0, and emits
`buffered` when the two times differ. -/
theorem on_progress_playing_twice (s : Player) (v : Video) (e1 e2 : ℚ)
    (hp : s.playable = true) (hpl : s.video.paused = false)
    (he1 : TimeRanges.end_ s.video.buffered ((s.video.buffered.length : Int) - 1) = some e1)
    (hpl2 : v.paused = false)
    (he2 : TimeRanges.end_ v.buffered ((v.buffered.length : Int) - 1) = some e2) :
    (v.currentTime = s.video.currentTime → v.currentTime ≠ 0 →
      (on_progress { (on_progress s).state with video := v }).state.emitted =
        (on_progress s).state.emitted ++ [.buffering]) ∧
    (v.currentTime ≠ s.video.currentTime →
      (on_progress { (on_progress s).state with video := v }).state.emitted =
        (on_progress s).state.emitted ++ [.buffered]) := by
  have hprev := on_progress_playing_prev_time s e1 hp hpl he1
  have hplay : ({ (on_progress s).state with video := v } : Player).playable = true := by
    show (on_progress s).state.playable = true
    rw [on_progress_playable, hp]
  obtain ⟨_, h1, h2, _⟩ :=
    on_progress_playing { (on_progress s).state with video := v } e2 hplay hpl2 he2
  constructor
  · intro h h0
    exact (h2 (by show v.currentTime = (on_progress s).state.prev_time; rw [hprev, h]) h0).1
  · intro h
    exact (h1 (by show v.currentTime ≠ (on_progress s).state.prev_time; rw [hprev]; exact h)).1

/-- C3 fails on the code: the controller is playable, its video is playing and
the sampled time 0 differs from `prev_time` = 5, yet with no buffered range
the sample throws at `buffered.end(-1)`, emits nothing and leaves `prev_time`
at 5, where the claim has `buffered` emitted and `prev_time` set to 0. -/
theorem on_progress_playing_unbuffered_throws :
    playing_unbuffered.playable = true ∧
    playing_unbuffered.video.paused = false ∧
    playing_unbuffered.video.buffered = [] ∧
    playing_unbuffered.video.currentTime ≠ playing_unbuffered.prev_time ∧
    (on_progress playing_unbuffered).returned = false ∧
    (on_progress playing_unbuffered).state.emitted = playing_unbuffered.emitted ∧
    (on_progress playing_unbuffered).state.prev_time = 5 := by
  refine ⟨by decide, by decide, by decide, by decide, ?_, ?_, ?_⟩
  · exact (on_progress_unbuffered playing_unbuffered (by decide) (by decide)).1
  · exact (on_progress_unbuffered playing_unbuffered (by decide) (by decide)).2.1
  · exact (on_progress_unbuffered playing_unbuffered (by decide) (by decide)).2.2

/-- C4 (amended): for a playable controller whose video is paused and has a
buffered range, the last one ending at `e`, one progress sample returns, emits
exactly one notification, `buffered` when `Math.round(e)` exceeds the current
time and `buffering` otherwise, and leaves `prev_time` unchanged. -/
theorem on_progress_paused (s : Player) (e : ℚ) (hp : s.playable = true)
    (hpl : s.video.paused = true)
    (he : TimeRanges.end_ s.video.buffered ((s.video.buffered.length : Int) - 1) = some e) :
    (on_progress s).returned = true ∧
    (on_progress s).state.emitted =
      s.emitted ++ [if s.video.currentTime < (JSNum.roundQ e : ℚ) then .buffered else .buffering] ∧
    (on_progress s).state.prev_time = s.prev_time :=
  on_progress_paused_aux s e hp hpl he

/-- The witness of C4 (amended): paused at 3 seconds with 10 seconds buffered. -/
theorem on_progress_paused_witness :
    (on_progress paused_buffered).returned = true ∧
    (on_progress paused_buffered).state.emitted =
      paused_buffered.emitted ++
        [if paused_buffered.video.currentTime < (JSNum.roundQ 10 : ℚ) then .buffered
         else .buffering] ∧
    (on_progress paused_buffered).state.prev_time = paused_buffered.prev_time :=
  on_progress_paused paused_buffered 10 (by decide) (by decide) rfl

/-- C4 as stated fails: paused at 10.2 seconds with the buffered range ending
at 10.4 seconds, the end of the range exceeds the current time, but the code
compares `Math.round(10.4)` = 10 with 10.2 and emits `buffering`. -/
theorem on_progress_paused_compares_rounded_end :
    paused_near_end.playable = true ∧
    paused_near_end.video.paused = true ∧
    TimeRanges.end_ paused_near_end.video.buffered
      ((paused_near_end.video.buffered.length : Int) - 1) = some (52 / 5) ∧
    paused_near_end.video.currentTime < 52 / 5 ∧
    (on_progress paused_near_end).state.emitted = paused_near_end.emitted ++ [.buffering] := by
  have hr : JSNum.roundQ (52 / 5) = 10 := by
    rw [roundQ_eq_iff]
    norm_num
  have h := (on_progress_paused_aux paused_near_end (52 / 5) (by decide) (by decide) rfl).2.1
  have hlt : ¬ (paused_near_end.video.currentTime < ((10 : Int) : ℚ)) := by
    show ¬ ((51 / 5 : ℚ) < ((10 : Int) : ℚ))
    norm_num
  rw [hr, if_neg hlt] at h
  refine ⟨by decide, by decide, rfl, ?_, h⟩
  show (51 / 5 : ℚ) < 52 / 5
  norm_num

/-! ## Layout engine -/

theorem roundQ_intCast (z : Int) : JSNum.roundQ (z : ℚ) = z := by
  rw [roundQ_eq_iff]
  constructor <;> linarith

theorem roundQ_natCast (n : ℕ) : JSNum.roundQ (n : ℚ) = n := by
  have := roundQ_intCast (n : Int)
  simpa using this

theorem roundQ_mono {q r : ℚ} (h : q ≤ r) : JSNum.roundQ q ≤ JSNum.roundQ r := by
  unfold JSNum.roundQ
  exact Int.floor_mono (by linarith)

/-- Rounding does not go below an integer the value has reached. -/
theorem le_roundQ_of_le (z : Int) (q : ℚ) (h : (z : ℚ) ≤ q) : z ≤ JSNum.roundQ q := by
  have := roundQ_mono h
  rwa [roundQ_intCast] at this

theorem div_fin_fin (a b : ℚ) (hb : b ≠ 0) :
    JSNum.div (.fin a) (.fin b) = .fin (a / b) := by
  simp [JSNum.div, hb]

/-- With nonzero content height, target height and chosen divisor, the scale
factor is finite: `W/w` when the target ratio is at least the content ratio,
`H/h` otherwise. -/
theorem proportion_of_ne_zero (item : Element) (ro : ResizeOptions)
    (hcw : content_width item ≠ 0) (hch : content_height item ≠ 0) (hH : ro.height ≠ 0) :
    proportion item ro =
      if content_width item / content_height item ≤ ro.width / ro.height
      then .fin (ro.width / content_width item)
      else .fin (ro.height / content_height item) := by
  unfold proportion
  simp only [div_fin_fin _ _ hcw, div_fin_fin _ _ hch, div_fin_fin _ _ hH, JSNum.ge,
    decide_eq_true_eq]

/-- The element `crop_resize` leaves when the scale factor is the finite
nonzero `p` and both rounded sizes are non-negative. -/
theorem crop_resize_with_of_fin (item : Element) (ro : ResizeOptions) (p : ℚ)
    (hp : proportion item ro = .fin p) (hp0 : p ≠ 0)
    (hw : 0 ≤ JSNum.roundQ (p * content_width item))
    (hh : 0 ≤ JSNum.roundQ (p * content_height item)) :
    crop_resize_with item ro =
      { videoWidth := item.videoWidth
        videoHeight := item.videoHeight
        width := JSNum.roundQ (p * content_width item)
        height := JSNum.roundQ (p * content_height item)
        top := if ro.vertical = "top" then .px 0
          else if ro.vertical = "bottom" then .auto
          else .px (((JSNum.roundQ (p * content_height item) : ℚ) - ro.height) / (-2))
        bottom := if ro.vertical = "bottom" then .px 0 else .auto
        left := if ro.horizontal = "left" then .px 0
          else if ro.horizontal = "right" then .auto
          else .px (((JSNum.roundQ (p * content_width item) : ℚ) - ro.width) / (-2))
        right := if ro.horizontal = "right" then .px 0 else .auto } := by
  have hw' : (0 : ℚ) ≤ (JSNum.roundQ (p * content_width item) : ℚ) := by exact_mod_cast hw
  have hh' : (0 : ℚ) ≤ (JSNum.roundQ (p * content_height item) : ℚ) := by exact_mod_cast hh
  have h2 : (-2 : ℚ) ≠ 0 := by norm_num
  unfold crop_resize_with
  simp only [hp, JSNum.truthy, hp0, ne_eq, not_false_eq_true, decide_True, if_true, JSNum.mul,
    JSNum.round, Element.setWidth, Element.setHeight, hw', hh', JSNum.sub, div_fin_fin _ _ h2,
    CssVal.assign]
  by_cases h1 : ro.horizontal = "left" <;> by_cases h2 : ro.horizontal = "right" <;>
    by_cases h3 : ro.vertical = "top" <;> by_cases h4 : ro.vertical = "bottom" <;>
    simp [h1, h2, h3, h4]

/-- The scale factor for positive content and target sizes, as a rational. -/
theorem proportion_of_pos (item : Element) (ro : ResizeOptions)
    (hcw : 0 < content_width item) (hch : 0 < content_height item)
    (_hW : 0 < ro.width) (hH : 0 < ro.height) :
    proportion item ro =
      if content_width item / content_height item ≤ ro.width / ro.height
      then .fin (ro.width / content_width item)
      else .fin (ro.height / content_height item) :=
  proportion_of_ne_zero item ro hcw.ne.symm hch.ne.symm hH.ne.symm

/-- Width-fill: the target ratio is at least the content ratio. -/
theorem crop_resize_with_width_fill (item : Element) (ro : ResizeOptions)
    (hcw : 0 < content_width item) (hch : 0 < content_height item)
    (hW : 0 < ro.width) (hH : 0 < ro.height)
    (hr : content_width item / content_height item ≤ ro.width / ro.height) :
    proportion item ro = .fin (ro.width / content_width item) ∧
    ro.width / content_width item * content_width item = ro.width ∧
    ro.height ≤ ro.width / content_width item * content_height item ∧
    crop_resize_with item ro =
      { videoWidth := item.videoWidth
        videoHeight := item.videoHeight
        width := JSNum.roundQ ro.width
        height := JSNum.roundQ (ro.width / content_width item * content_height item)
        top := if ro.vertical = "top" then .px 0
          else if ro.vertical = "bottom" then .auto
          else .px (((JSNum.roundQ (ro.width / content_width item * content_height item) : ℚ)
            - ro.height) / (-2))
        bottom := if ro.vertical = "bottom" then .px 0 else .auto
        left := if ro.horizontal = "left" then .px 0
          else if ro.horizontal = "right" then .auto
          else .px (((JSNum.roundQ ro.width : ℚ) - ro.width) / (-2))
        right := if ro.horizontal = "right" then .px 0 else .auto } := by
  have hp : proportion item ro = .fin (ro.width / content_width item) := by
    rw [proportion_of_pos item ro hcw hch hW hH, if_pos hr]
  have hmul : ro.width / content_width item * content_width item = ro.width :=
    div_mul_cancel₀ _ hcw.ne.symm
  have hcover : ro.height ≤ ro.width / content_width item * content_height item := by
    rw [div_le_div_iff₀ hch hH] at hr
    rw [div_mul_eq_mul_div, le_div_iff₀ hcw]
    linarith
  have hp0 : ro.width / content_width item ≠ 0 := (div_pos hW hcw).ne.symm
  have h := crop_resize_with_of_fin item ro _ hp hp0
    (by
      have : ((0 : Int) : ℚ) ≤ ro.width / content_width item * content_width item := by
        rw [hmul]; exact_mod_cast hW.le
      exact le_roundQ_of_le 0 _ this)
    (by
      have : ((0 : Int) : ℚ) ≤ ro.width / content_width item * content_height item := by
        have := hH.le
        push_cast
        linarith
      exact le_roundQ_of_le 0 _ this)
  rw [hmul] at h
  exact ⟨hp, hmul, hcover, h⟩

/-- Height-fill: the target ratio is below the content ratio. -/
theorem crop_resize_with_height_fill (item : Element) (ro : ResizeOptions)
    (hcw : 0 < content_width item) (hch : 0 < content_height item)
    (hW : 0 < ro.width) (hH : 0 < ro.height)
    (hr : ¬ content_width item / content_height item ≤ ro.width / ro.height) :
    proportion item ro = .fin (ro.height / content_height item) ∧
    ro.height / content_height item * content_height item = ro.height ∧
    ro.width < ro.height / content_height item * content_width item ∧
    crop_resize_with item ro =
      { videoWidth := item.videoWidth
        videoHeight := item.videoHeight
        width := JSNum.roundQ (ro.height / content_height item * content_width item)
        height := JSNum.roundQ ro.height
        top := if ro.vertical = "top" then .px 0
          else if ro.vertical = "bottom" then .auto
          else .px (((JSNum.roundQ ro.height : ℚ) - ro.height) / (-2))
        bottom := if ro.vertical = "bottom" then .px 0 else .auto
        left := if ro.horizontal = "left" then .px 0
          else if ro.horizontal = "right" then .auto
          else .px (((JSNum.roundQ (ro.height / content_height item * content_width item) : ℚ)
            - ro.width) / (-2))
        right := if ro.horizontal = "right" then .px 0 else .auto } := by
  have hp : proportion item ro = .fin (ro.height / content_height item) := by
    rw [proportion_of_pos item ro hcw hch hW hH, if_neg hr]
  have hmul : ro.height / content_height item * content_height item = ro.height :=
    div_mul_cancel₀ _ hch.ne.symm
  have hcover : ro.width < ro.height / content_height item * content_width item := by
    rw [not_le, div_lt_div_iff₀ hH hch] at hr
    rw [div_mul_eq_mul_div, lt_div_iff₀ hch]
    linarith
  have hp0 : ro.height / content_height item ≠ 0 := (div_pos hH hch).ne.symm
  have h := crop_resize_with_of_fin item ro _ hp hp0
    (by
      have : ((0 : Int) : ℚ) ≤ ro.height / content_height item * content_width item := by
        have := hW.le
        push_cast
        linarith
      exact le_roundQ_of_le 0 _ this)
    (by
      have : ((0 : Int) : ℚ) ≤ ro.height / content_height item * content_height item := by
        rw [hmul]; exact_mod_cast hH.le
      exact le_roundQ_of_le 0 _ this)
  rw [hmul] at h
  exact ⟨hp, hmul, hcover, h⟩

/-- C5: for content `w`x`h` and target `W`x`H` in positive whole pixels,
`crop_resize` takes the scale factor `W/w` when `W/H ≥ w/h` and `H/h`
otherwise; the width and height it applies are whole numbers, the one on the
filled axis is the target's exactly, and both are at least the target's. -/
theorem crop_resize_covers (s : Player) (item : Element) (options : Option Options)
    (w h W H : ℕ) (hw : 0 < w) (hh : 0 < h) (hW : 0 < W) (hH : 0 < H)
    (hcw : content_width item = w) (hch : content_height item = h)
    (hrw : (resize_options s options).width = W)
    (hrh : (resize_options s options).height = H) :
    (proportion item (resize_options s options) =
      if (w : ℚ) / h ≤ (W : ℚ) / H then .fin ((W : ℚ) / w) else .fin ((H : ℚ) / h)) ∧
    ((w : ℚ) / h ≤ (W : ℚ) / H → (crop_resize s item options).width = W) ∧
    (¬ (w : ℚ) / h ≤ (W : ℚ) / H → (crop_resize s item options).height = H) ∧
    (∃ w1 h1 : Int, (crop_resize s item options).width = w1 ∧
      (crop_resize s item options).height = h1) ∧
    (W : ℚ) ≤ (crop_resize s item options).width ∧
    (H : ℚ) ≤ (crop_resize s item options).height := by
  have hcw0 : 0 < content_width item := by rw [hcw]; exact_mod_cast hw
  have hch0 : 0 < content_height item := by rw [hch]; exact_mod_cast hh
  have hW0 : 0 < (resize_options s options).width := by rw [hrw]; exact_mod_cast hW
  have hH0 : 0 < (resize_options s options).height := by rw [hrh]; exact_mod_cast hH
  unfold crop_resize
  by_cases hr : (w : ℚ) / h ≤ (W : ℚ) / H
  · have hr' : content_width item / content_height item ≤
        (resize_options s options).width / (resize_options s options).height := by
      rw [hcw, hch, hrw, hrh]; exact hr
    obtain ⟨hp, _, hcover, he⟩ :=
      crop_resize_with_width_fill item (resize_options s options) hcw0 hch0 hW0 hH0 hr'
    simp only [hcw, hch, hrw, hrh, roundQ_natCast] at hp hcover he
    rw [he]
    have hge : (H : Int) ≤ JSNum.roundQ ((W : ℚ) / w * h) :=
      le_roundQ_of_le H _ (by exact_mod_cast hcover)
    refine ⟨by rw [hp, if_pos hr], fun _ => by simp, fun h => absurd hr h,
      ⟨(W : Int), JSNum.roundQ ((W : ℚ) / w * h), by simp, rfl⟩, by simp, ?_⟩
    show (H : ℚ) ≤ ((JSNum.roundQ ((W : ℚ) / w * h) : Int) : ℚ)
    exact_mod_cast hge
  · have hr' : ¬ content_width item / content_height item ≤
        (resize_options s options).width / (resize_options s options).height := by
      rw [hcw, hch, hrw, hrh]; exact hr
    obtain ⟨hp, _, hcover, he⟩ :=
      crop_resize_with_height_fill item (resize_options s options) hcw0 hch0 hW0 hH0 hr'
    simp only [hcw, hch, hrw, hrh, roundQ_natCast] at hp hcover he
    rw [he]
    have hge : (W : Int) ≤ JSNum.roundQ ((H : ℚ) / h * w) :=
      le_roundQ_of_le W _ (by exact_mod_cast hcover.le)
    refine ⟨by rw [hp, if_neg hr], fun h => absurd h hr, fun _ => by simp,
      ⟨JSNum.roundQ ((H : ℚ) / h * w), (H : Int), rfl, by simp⟩, ?_, by simp⟩
    show (W : ℚ) ≤ ((JSNum.roundQ ((H : ℚ) / h * w) : Int) : ℚ)
    exact_mod_cast hge

theorem crop_resize_with_eq_placed (item : Element) (ro : ResizeOptions) (p : ℚ)
    (hp : proportion item ro = .fin p) (hp0 : p ≠ 0)
    (hw : 0 ≤ JSNum.roundQ (p * content_width item))
    (hh : 0 ≤ JSNum.roundQ (p * content_height item)) :
    crop_resize_with item ro =
      placed item ro (JSNum.roundQ (p * content_width item))
        (JSNum.roundQ (p * content_height item)) :=
  crop_resize_with_of_fin item ro p hp hp0 hw hh

theorem proportion_congr (a b : Element) (ro : ResizeOptions)
    (hw : content_width a = content_width b) (hh : content_height a = content_height b) :
    proportion a ro = proportion b ro := by
  unfold proportion
  rw [hw, hh]

/-- For positive content and a target in positive whole pixels, `crop_resize`
places the element at integer sizes `w1 ≥ W`, `h1 ≥ H`, one of them equal to
the target's. -/
theorem crop_resize_with_pos (item : Element) (ro : ResizeOptions) (W H : ℕ)
    (hW : 0 < W) (hH : 0 < H) (hrw : ro.width = W) (hrh : ro.height = H)
    (hcw : 0 < content_width item) (hch : 0 < content_height item) :
    ∃ (p : ℚ) (w1 h1 : Int), 0 < p ∧ proportion item ro = .fin p ∧
      w1 = JSNum.roundQ (p * content_width item) ∧
      h1 = JSNum.roundQ (p * content_height item) ∧
      (W : Int) ≤ w1 ∧ (H : Int) ≤ h1 ∧ (w1 = W ∨ h1 = H) ∧
      crop_resize_with item ro = placed item ro w1 h1 := by
  have hW0 : 0 < ro.width := by rw [hrw]; exact_mod_cast hW
  have hH0 : 0 < ro.height := by rw [hrh]; exact_mod_cast hH
  by_cases hr : content_width item / content_height item ≤ ro.width / ro.height
  · obtain ⟨hp, hmul, hcover, _⟩ := crop_resize_with_width_fill item ro hcw hch hW0 hH0 hr
    have hp0 : 0 < ro.width / content_width item := div_pos hW0 hcw
    have e1 : JSNum.roundQ (ro.width / content_width item * content_width item) = W := by
      rw [hmul, hrw, roundQ_natCast]
    have e2 : (H : Int) ≤ JSNum.roundQ (ro.width / content_width item * content_height item) :=
      le_roundQ_of_le H _ (by rw [hrh] at hcover; exact_mod_cast hcover)
    refine ⟨_, _, _, hp0, hp, rfl, rfl, by rw [e1], e2, Or.inl e1, ?_⟩
    exact crop_resize_with_eq_placed item ro _ hp hp0.ne.symm (by rw [e1]; omega) (by omega)
  · obtain ⟨hp, hmul, hcover, _⟩ := crop_resize_with_height_fill item ro hcw hch hW0 hH0 hr
    have hp0 : 0 < ro.height / content_height item := div_pos hH0 hch
    have e1 : JSNum.roundQ (ro.height / content_height item * content_height item) = H := by
      rw [hmul, hrh, roundQ_natCast]
    have e2 : (W : Int) ≤ JSNum.roundQ (ro.height / content_height item * content_width item) :=
      le_roundQ_of_le W _ (by rw [hrw] at hcover; exact_mod_cast hcover.le)
    refine ⟨_, _, _, hp0, hp, rfl, rfl, e2, by rw [e1], Or.inr e1, ?_⟩
    exact crop_resize_with_eq_placed item ro _ hp hp0.ne.symm (by omega) (by rw [e1]; omega)

/-- An element re-read from the box `crop_resize` has just set is scaled by 1. -/
theorem proportion_placed_rendered (item : Element) (ro : ResizeOptions) (W H : ℕ)
    (w1 h1 : Int) (hW : 0 < W) (hH : 0 < H) (hrw : ro.width = W) (hrh : ro.height = H)
    (hv : item.videoWidth = 0) (hw1 : (W : Int) ≤ w1) (hh1 : (H : Int) ≤ h1)
    (hfill : w1 = W ∨ h1 = H) :
    proportion (placed item ro w1 h1) ro = .fin 1 := by
  have hcw : content_width (placed item ro w1 h1) = w1 := by
    simp [content_width, placed, hv]
  have hch : content_height (placed item ro w1 h1) = h1 := by
    simp [content_height, placed, hv]
  have hw1' : (0 : ℚ) < w1 := by exact_mod_cast (by omega : (0 : Int) < w1)
  have hh1' : (0 : ℚ) < h1 := by exact_mod_cast (by omega : (0 : Int) < h1)
  have hW0 : (0 : ℚ) < W := by exact_mod_cast hW
  have hH0 : (0 : ℚ) < H := by exact_mod_cast hH
  rw [proportion_of_pos _ ro (by rw [hcw]; exact hw1') (by rw [hch]; exact hh1')
    (by rw [hrw]; exact hW0) (by rw [hrh]; exact hH0), hcw, hch, hrw, hrh]
  have hWq : (W : ℚ) ≤ w1 := by exact_mod_cast hw1
  have hHq : (H : ℚ) ≤ h1 := by exact_mod_cast hh1
  split_ifs with hr
  · rw [div_le_div_iff₀ hh1' hH0] at hr
    have : (w1 : ℚ) = W := by
      rcases hfill with h | h
      · exact_mod_cast h
      · have hh : (h1 : ℚ) = H := by exact_mod_cast h
        rw [hh] at hr
        have : (w1 : ℚ) ≤ W := le_of_mul_le_mul_right hr hH0
        linarith
    rw [this, div_self hW0.ne.symm]
  · rw [not_le, div_lt_div_iff₀ hH0 hh1'] at hr
    have : (h1 : ℚ) = H := by
      rcases hfill with h | h
      · have hw : (w1 : ℚ) = W := by exact_mod_cast h
        rw [hw] at hr
        have : (h1 : ℚ) < H := by
          have h' : (W : ℚ) * h1 < W * H := by linarith
          exact lt_of_mul_lt_mul_left h' hW0.le
        linarith
      · exact_mod_cast h
    rw [this, div_self hH0.ne.symm]

/-- Applied to its own result, `crop_resize` changes nothing. -/
theorem crop_resize_with_idem (item : Element) (ro : ResizeOptions) (W H : ℕ)
    (hW : 0 < W) (hH : 0 < H) (hrw : ro.width = W) (hrh : ro.height = H)
    (hcw : 0 < content_width item) (hch : 0 < content_height item) :
    crop_resize_with (crop_resize_with item ro) ro = crop_resize_with item ro := by
  obtain ⟨p, w1, h1, hp0, hp, hw1, hh1, hWw, hHh, hfill, he⟩ :=
    crop_resize_with_pos item ro W H hW hH hrw hrh hcw hch
  rw [he]
  by_cases hv : item.videoWidth = 0
  · have hcw' : content_width (placed item ro w1 h1) = w1 := by
      simp [content_width, placed, hv]
    have hch' : content_height (placed item ro w1 h1) = h1 := by
      simp [content_height, placed, hv]
    have h1p := proportion_placed_rendered item ro W H w1 h1 hW hH hrw hrh hv hWw hHh hfill
    rw [crop_resize_with_eq_placed _ ro 1 h1p one_ne_zero
      (by rw [hcw', one_mul, roundQ_intCast]; omega)
      (by rw [hch', one_mul, roundQ_intCast]; omega)]
    rw [hcw', hch', one_mul, one_mul, roundQ_intCast, roundQ_intCast]
    rfl
  · have hcw' : content_width (placed item ro w1 h1) = content_width item := by
      simp [content_width, placed, hv]
    have hch' : content_height (placed item ro w1 h1) = content_height item := by
      simp [content_height, placed, hv]
    have hp' : proportion (placed item ro w1 h1) ro = .fin p := by
      rw [proportion_congr _ item ro hcw' hch', hp]
    rw [crop_resize_with_eq_placed _ ro p hp' hp0.ne.symm
      (by rw [hcw', ← hw1]; omega) (by rw [hch', ← hh1]; omega)]
    rw [hcw', hch', ← hw1, ← hh1]
    rfl

theorem setWidth_cases (e : Element) (v : JSNum) :
    ∃ w, e.setWidth v = { e with width := w } := by
  cases v with
  | fin q =>
    by_cases hq : 0 ≤ q
    · exact ⟨q, by simp [Element.setWidth, hq]⟩
    · exact ⟨e.width, by simp [Element.setWidth, hq]⟩
  | pinf => exact ⟨e.width, rfl⟩
  | ninf => exact ⟨e.width, rfl⟩
  | nan => exact ⟨e.width, rfl⟩

theorem setHeight_cases (e : Element) (v : JSNum) :
    ∃ h, e.setHeight v = { e with height := h } := by
  cases v with
  | fin q =>
    by_cases hq : 0 ≤ q
    · exact ⟨q, by simp [Element.setHeight, hq]⟩
    · exact ⟨e.height, by simp [Element.setHeight, hq]⟩
  | pinf => exact ⟨e.height, rfl⟩
  | ninf => exact ⟨e.height, rfl⟩
  | nan => exact ⟨e.height, rfl⟩

/-- Whenever the scale factor is truthy, the result is the element at the size
it then has, with the four offsets cleared and the anchors' offsets set from
that size. -/
theorem crop_resize_with_truthy (item : Element) (ro : ResizeOptions)
    (h : JSNum.truthy (proportion item ro) = true) :
    crop_resize_with item ro =
      placed item ro (crop_resize_with item ro).width (crop_resize_with item ro).height := by
  have h2 : (-2 : ℚ) ≠ 0 := by norm_num
  unfold crop_resize_with
  simp only [h, if_true]
  generalize JSNum.round (JSNum.mul (proportion item ro) (.fin (content_width item))) = v1
  generalize JSNum.round (JSNum.mul (proportion item ro) (.fin (content_height item))) = v2
  obtain ⟨w, hw⟩ := setWidth_cases
    { item with top := .auto, bottom := .auto, left := .auto, right := .auto } v1
  rw [hw]
  obtain ⟨h', hh⟩ := setHeight_cases
    { item with top := .auto, bottom := .auto, left := .auto, right := .auto, width := w } v2
  rw [hh]
  simp only [placed, JSNum.sub, div_fin_fin _ _ h2, CssVal.assign]
  by_cases c1 : ro.horizontal = "left" <;> by_cases c2 : ro.horizontal = "right" <;>
    by_cases c3 : ro.vertical = "top" <;> by_cases c4 : ro.vertical = "bottom" <;>
    first
    | (rw [c1] at c2; exact absurd c2 (by decide))
    | (rw [c3] at c4; exact absurd c4 (by decide))
    | simp only [c1, c2, c3, c4, if_true, if_false, (by decide : ¬ "left" = "right"),
        (by decide : ¬ "right" = "left"), (by decide : ¬ "top" = "bottom"),
        (by decide : ¬ "bottom" = "top")]

/-- The witness of C5: the 1920x1080 poster against the 800x600 window. -/
theorem crop_resize_covers_witness :
    ((800 : ℕ) : ℚ) ≤ (crop_resize player0 poster0.box none).width ∧
    ((600 : ℕ) : ℚ) ≤ (crop_resize player0 poster0.box none).height :=
  (crop_resize_covers player0 poster0.box none 1920 1080 800 600 (by decide) (by decide)
    (by decide) (by decide) (by decide) (by decide) (by decide) (by decide)).2.2.2.2

/-- `resize` reads its target from fields that it does not change. -/
theorem resize_options_resize (s : Player) :
    resize_options (resize s) none = resize_options s none := rfl

theorem resize_video_box (s : Player) :
    (resize s).video.box = crop_resize_with s.video.box (resize_options s none) := rfl

theorem resize_poster_box (s : Player) :
    (resize s).poster.box = crop_resize_with s.poster.box (resize_options s none) := rfl

/-- A controller whose two boxes `crop_resize` leaves alone is left alone by
`resize`. -/
theorem resize_fixed (t : Player)
    (hv : crop_resize_with t.video.box (resize_options t none) = t.video.box)
    (hp : crop_resize_with t.poster.box (resize_options t none) = t.poster.box) :
    resize t = t := by
  have e : resize t =
      { t with
        video := { t.video with box := crop_resize_with t.video.box (resize_options t none) }
        poster := { t.poster with
          box := crop_resize_with t.poster.box (resize_options t none) } } := rfl
  rw [e, hv, hp]

/-- C6: with a target in positive whole pixels and positive content sizes for
the video and the poster, a second `resize()` leaves the controller, and so
the width, height and four offsets of both elements, exactly as the first one
did.  The content size is the intrinsic resolution when `videoWidth` is
nonzero, and otherwise the rendered box, which on the second call is the box
the first call has just set. -/
theorem resize_idempotent (s : Player) (W H : ℕ) (hW : 0 < W) (hH : 0 < H)
    (hrw : (resize_options s none).width = W) (hrh : (resize_options s none).height = H)
    (hvw : 0 < content_width s.video.box) (hvh : 0 < content_height s.video.box)
    (hpw : 0 < content_width s.poster.box) (hph : 0 < content_height s.poster.box) :
    resize (resize s) = resize s ∧
    (resize (resize s)).video.box = crop_resize s s.video.box none ∧
    (resize (resize s)).poster.box = crop_resize s s.poster.box none := by
  have hv := crop_resize_with_idem s.video.box (resize_options s none) W H hW hH hrw hrh hvw hvh
  have hp := crop_resize_with_idem s.poster.box (resize_options s none) W H hW hH hrw hrh hpw hph
  have hfix : resize (resize s) = resize s := by
    apply resize_fixed
    · rw [resize_options_resize, resize_video_box]
      exact hv
    · rw [resize_options_resize, resize_poster_box]
      exact hp
  refine ⟨hfix, ?_, ?_⟩
  · rw [hfix]
    exact resize_video_box s
  · rw [hfix]
    exact resize_poster_box s

/-- The witness of C6: the controller with a 1280x720 video (intrinsic size)
and the 1920x1080 poster (rendered size) in the 800x600 window. -/
theorem resize_idempotent_witness :
    resize (resize player_hd) = resize player_hd ∧
    (resize (resize player_hd)).video.box = crop_resize player_hd player_hd.video.box none ∧
    (resize (resize player_hd)).poster.box = crop_resize player_hd player_hd.poster.box none :=
  resize_idempotent player_hd 800 600 (by decide) (by decide) (by decide) (by decide)
    (by decide) (by decide) (by decide) (by decide)

/-! ## Playback operations and the end-of-media policy -/

/-- For an id that indexes a scene, `load_scene` returns, having triggered
nothing and called nothing on the video element. -/
theorem load_scene_done (s : Player) (id : Int) (h0 : 0 ≤ id)
    (h1 : id < s.video_list.length) :
    ∃ s1, load_scene s id = .done s1 ∧ s1.current_id = id ∧ s1.emitted = s.emitted ∧
      s1.calls = s.calls := by
  have hsome : (lookup s.video_list id).isSome = true := (lookup_isSome_iff _ _).mpr ⟨h0, h1⟩
  obtain ⟨obj, hobj⟩ := Option.isSome_iff_exists.mp hsome
  unfold load_scene
  rw [hobj]
  simp only
  split_ifs <;> exact ⟨_, rfl, rfl, rfl, rfl⟩

theorem load_scene_calls (s : Player) (id : Int) :
    (load_scene s id).state.calls = s.calls := by
  unfold load_scene
  cases lookup s.video_list id with
  | none => rfl
  | some obj =>
    simp only
    split_ifs <;> rfl

theorem next_calls (s : Player) : (next s).state.calls = s.calls := by
  unfold next
  split_ifs
  · have := load_scene_calls s 0
    cases h : load_scene s 0 <;> rw [h] at this <;> simpa [Outcome.andThen, Outcome.state, trigger] using this
  · have := load_scene_calls s (s.current_id + 1)
    cases h : load_scene s (s.current_id + 1) <;> rw [h] at this <;>
      simpa [Outcome.andThen, Outcome.state, trigger] using this

/-- From a valid current id, `next` returns with `next_loaded` as the one
notification triggered. -/
theorem next_emitted (s : Player) (h0 : 0 ≤ s.current_id)
    (h1 : s.current_id < s.video_list.length) :
    (next s).returned = true ∧ (next s).state.emitted = s.emitted ++ [.next_loaded] := by
  unfold next
  split_ifs with h
  · obtain ⟨s1, e, _, he, _⟩ := load_scene_done s 0 (le_refl _) (by omega)
    rw [e]
    simp [Outcome.andThen, Outcome.state, Outcome.returned, trigger, he]
  · obtain ⟨s1, e, _, he, _⟩ := load_scene_done s (s.current_id + 1) (by omega) (by omega)
    rw [e]
    simp [Outcome.andThen, Outcome.state, Outcome.returned, trigger, he]

theorem wrap_next_eq_mod (K n : Int) (h0 : 0 ≤ K) (h1 : K < n) :
    (if K = n - 1 then 0 else K + 1) = (K + 1) % n := by
  split_ifs with h
  · rw [h]
    simp
  · rw [Int.emod_eq_of_lt (by omega) (by omega)]

/-- C8: an end-of-media event runs exactly one of `play()`, `next()`, `stop()`.
With `loop` set it is `play()` (whatever `repeat` is): the current id stays and
nothing is notified.  Otherwise with `repeat` set it is `next()`: no call
reaches the video element, and from a valid id `K` the id becomes
`(K+1) mod n` and `next_loaded` is the one notification.  Otherwise it is
`stop()`: the current id stays and `stop` is the one notification. -/
theorem on_ended_policy (s : Player) :
    (s.loop = true →
      on_ended s = .done (play s none) ∧
      (on_ended s).state.current_id = s.current_id ∧
      (on_ended s).state.emitted = s.emitted ∧
      (s.playable = true → (on_ended s).state.calls = s.calls ++ [.play])) ∧
    (s.loop = false → s.repeat_ = true →
      on_ended s = next s ∧
      (on_ended s).state.calls = s.calls ∧
      (0 ≤ s.current_id → s.current_id < s.video_list.length →
        (on_ended s).returned = true ∧
        (on_ended s).state.current_id = (s.current_id + 1) % (s.video_list.length : Int) ∧
        (s.current_id = (s.video_list.length : Int) - 1 → (on_ended s).state.current_id = 0) ∧
        (on_ended s).state.emitted = s.emitted ++ [.next_loaded])) ∧
    (s.loop = false → s.repeat_ = false →
      on_ended s = .done (stop s none) ∧
      (on_ended s).state.current_id = s.current_id ∧
      (on_ended s).state.emitted = s.emitted ++ [.stop] ∧
      (∀ c ∈ (on_ended s).state.calls, c = .play → c ∈ s.calls)) := by
  refine ⟨?_, ?_, ?_⟩
  · intro hl
    have e : on_ended s = .done (play s none) := by
      unfold on_ended
      rw [if_pos hl]
    rw [e]
    refine ⟨rfl, by simp [Outcome.state], ?_, ?_⟩
    · unfold play show_video
      split_ifs <;> rfl
    · intro hp
      unfold play show_video
      rw [if_pos hp]
      rfl
  · intro hl hr
    have e : on_ended s = next s := by
      unfold on_ended
      rw [if_neg (by simp [hl]), if_pos hr]
    rw [e]
    refine ⟨rfl, next_calls s, ?_⟩
    intro h0 h1
    obtain ⟨hret, hem⟩ := next_emitted s h0 h1
    refine ⟨hret, ?_, ?_, hem⟩
    · rw [next_current_id]
      exact wrap_next_eq_mod _ _ h0 h1
    · intro hlast
      rw [next_current_id, if_pos hlast]
  · intro hl hr
    have e : on_ended s = .done (stop s none) := by
      unfold on_ended
      rw [if_neg (by simp [hl]), if_neg (by simp [hr])]
    rw [e]
    refine ⟨rfl, by simp [Outcome.state], ?_, ?_⟩
    · unfold stop
      split_ifs <;> rfl
    · intro c hc hplay
      subst hplay
      simp only [Outcome.state] at hc
      unfold stop at hc
      split_ifs at hc
      · simp [trigger, on_stop, show_poster, pause, reset_time] at hc
        exact hc
      · simpa [trigger, on_stop, show_poster] using hc

/-- The witness of C8: with `repeat` set, the end of the last of three scenes
leads to scene 0. -/
theorem on_ended_policy_witness :
    (on_ended { player0 with repeat_ := true, current_id := 2 }).state.current_id = 0 :=
  (((on_ended_policy { player0 with repeat_ := true, current_id := 2 }).2.1
    (by decide) (by decide)).2.2 (by decide) (by decide)).2.2.1 (by decide)

/-- What `stop` does in each of its two cases. -/
theorem stop_eq (s : Player) (cb : Option (Player → Player)) :
    stop s cb =
      if s.playable = true ∧ s.video.played ≠ [] then
        { s with
          video := { s.video with paused := true, currentTime := 0 }
          calls := s.calls ++ [.pause, .seek 0]
          emitted := s.emitted ++ [.stop]
          poster := { s.poster with shown := true } }
      else
        { s with
          emitted := s.emitted ++ [.stop]
          poster := { s.poster with shown := true } } := by
  unfold stop
  by_cases hp : s.playable = true
  · by_cases hl : s.video.played = []
    · simp [hp, hl, trigger, on_stop, show_poster]
    · have hlen : s.video.played.length ≠ 0 := by
        intro h
        exact hl (List.length_eq_zero.mp h)
      simp [hp, hl, hlen, trigger, on_stop, show_poster, pause, reset_time]
  · simp [hp, trigger, on_stop, show_poster]

/-- C9 (amended): `stop()` pauses the video and resets its time to 0 when the
controller is playable and the played range is non-empty; when it is not
playable or the played range is empty the video element is left as it is and
nothing is called on it.  In every case exactly one `stop` notification is
triggered, whose handler shows the poster. -/
theorem stop_spec (s : Player) (cb : Option (Player → Player)) :
    (s.playable = true → s.video.played ≠ [] →
      (stop s cb).video.paused = true ∧
      (stop s cb).video.currentTime = 0 ∧
      (stop s cb).calls = s.calls ++ [.pause, .seek 0]) ∧
    ((s.playable = false ∨ s.video.played = []) →
      (stop s cb).video = s.video ∧
      (stop s cb).calls = s.calls) ∧
    (stop s cb).emitted = s.emitted ++ [.stop] ∧
    (stop s cb).poster.shown = true := by
  rw [stop_eq]
  refine ⟨?_, ?_, ?_, ?_⟩
  · intro hp hl
    rw [if_pos ⟨hp, hl⟩]
    exact ⟨rfl, rfl, rfl⟩
  · intro h
    have : ¬ (s.playable = true ∧ s.video.played ≠ []) := by
      rintro ⟨hp, hl⟩
      rcases h with h | h
      · rw [h] at hp
        exact Bool.false_ne_true hp
      · exact hl h
    rw [if_neg this]
    exact ⟨rfl, rfl⟩
  · split_ifs <;> rfl
  · split_ifs <;> rfl

/-- The witness of C9 (amended): the playable controller whose video has
played 5 seconds. -/
theorem stop_spec_witness :
    (stop played_player none).video.paused = true ∧
    (stop played_player none).video.currentTime = 0 ∧
    (stop played_player none).calls = played_player.calls ++ [.pause, .seek 0] :=
  (stop_spec played_player none).1 (by decide) (by decide)

/-- C9 as stated fails: the video has a non-empty played range, is playing and
stands at 5 seconds, but the controller is not playable, and `stop()` neither
pauses it nor resets its time. -/
theorem stop_unplayable_keeps_playing :
    unplayable_played.video.played ≠ [] ∧
    unplayable_played.video.paused = false ∧
    unplayable_played.video.currentTime = 5 ∧
    (stop unplayable_played none).video.paused = false ∧
    (stop unplayable_played none).video.currentTime = 5 ∧
    (stop unplayable_played none).calls = unplayable_played.calls := by
  have h : (stop unplayable_played none).video = unplayable_played.video ∧
      (stop unplayable_played none).calls = unplayable_played.calls := by
    rw [stop_eq, if_neg (by decide)]
    exact ⟨rfl, rfl⟩
  refine ⟨by decide, by decide, by decide, ?_, ?_, h.2⟩
  · rw [h.1]
    decide
  · rw [h.1]
    decide

/-- A controller that is not playable is returned by `play` as it is, the
callback not being run. -/
theorem play_unplayable (s : Player) (cb : Option (Player → Player))
    (hp : s.playable = false) : play s cb = s := by
  unfold play
  rw [if_neg (by simp [hp])]

/-- On a controller that is not playable `stop` calls nothing on the video
element: it triggers `stop` and shows the poster, nothing else. -/
theorem stop_unplayable (s : Player) (cb : Option (Player → Player))
    (hp : s.playable = false) :
    stop s cb =
      { s with
        emitted := s.emitted ++ [.stop]
        poster := { s.poster with shown := true } } := by
  rw [stop_eq, if_neg (by simp [hp])]

/-- Whatever `playable` is, `pause` calls `video.pause()` and then runs the
callback. -/
theorem pause_eq (s : Player) (cb : Player → Player) :
    pause s (some cb) =
      cb { s with video := { s.video with paused := true }, calls := s.calls ++ [.pause] } ∧
    pause s none =
      { s with video := { s.video with paused := true }, calls := s.calls ++ [.pause] } :=
  ⟨rfl, rfl⟩

/-- C10 fails on the code for `pause`: on the controller that `load_scene(2)`
has left not playable, `play()` and `stop()` call nothing on the video
element, but `pause()` calls `video.pause()`, and `pause(callback)` goes on to
run its callback (here one that seeks to 0). -/
theorem pause_unplayable_calls_pause :
    unplayable.playable = false ∧
    play unplayable none = unplayable ∧
    (stop unplayable none).calls = unplayable.calls ∧
    (pause unplayable none).calls = unplayable.calls ++ [.pause] ∧
    (pause unplayable (some reset_time)).calls = unplayable.calls ++ [.pause, .seek 0] ∧
    pause unplayable none ≠ unplayable := by
  have hp : unplayable.playable = false := by decide
  refine ⟨hp, play_unplayable _ _ hp, ?_, rfl, ?_, ?_⟩
  · rw [stop_unplayable _ _ hp]
  · show unplayable.calls ++ [.pause] ++ [.seek 0] = unplayable.calls ++ [.pause, .seek 0]
    simp
  · intro h
    have := congrArg Player.calls h
    rw [(pause_eq unplayable id).2] at this
    simp at this

/-! ## Zero-sized content -/

/-- A size that is NaN or +Infinity is not stored by the setters. -/
theorem setWidth_not_finite (e : Element) (v : JSNum) (hv : v = .nan ∨ v = .pinf) :
    e.setWidth v = e ∧ e.setHeight v = e := by
  rcases hv with h | h <;> rw [h] <;> exact ⟨rfl, rfl⟩

/-- With a truthy scale factor and both scaled sizes NaN or +Infinity, the
element keeps its size, and its offsets are cleared and set again from that
size. -/
theorem crop_resize_with_not_finite (item : Element) (ro : ResizeOptions)
    (h : JSNum.truthy (proportion item ro) = true)
    (hw : scaled_width item ro = .nan ∨ scaled_width item ro = .pinf)
    (hh : scaled_height item ro = .nan ∨ scaled_height item ro = .pinf) :
    crop_resize_with item ro = placed item ro item.width item.height := by
  have h2 : (-2 : ℚ) ≠ 0 := by norm_num
  unfold scaled_width at hw
  unfold scaled_height at hh
  unfold crop_resize_with
  simp only [h, if_true]
  rw [(setWidth_not_finite _ _ hw).1, (setWidth_not_finite _ _ hh).2]
  simp only [placed, JSNum.sub, div_fin_fin _ _ h2, CssVal.assign]
  by_cases c1 : ro.horizontal = "left" <;> by_cases c2 : ro.horizontal = "right" <;>
    by_cases c3 : ro.vertical = "top" <;> by_cases c4 : ro.vertical = "bottom" <;>
    first
    | (rw [c1] at c2; exact absurd c2 (by decide))
    | (rw [c3] at c4; exact absurd c4 (by decide))
    | simp only [c1, c2, c3, c4, if_true, if_false, (by decide : ¬ "left" = "right"),
        (by decide : ¬ "right" = "left"), (by decide : ¬ "top" = "bottom"),
        (by decide : ¬ "bottom" = "top")]

/-- Zero-sized content against a target of positive size: the scale factor is
+Infinity, which is truthy, so the guard of `crop_resize` lets the call
through; the sizes handed to the setters are NaN or +Infinity, at least one of
them NaN; the offsets are cleared and set again. -/
theorem crop_resize_with_zero_content (item : Element) (ro : ResizeOptions)
    (hcw : 0 ≤ content_width item) (hch : 0 ≤ content_height item)
    (hz : content_width item = 0 ∨ content_height item = 0)
    (hW : 0 < ro.width) (hH : 0 < ro.height) :
    proportion item ro = .pinf ∧
    JSNum.truthy (proportion item ro) = true ∧
    (scaled_width item ro = .nan ∨ scaled_width item ro = .pinf) ∧
    (scaled_height item ro = .nan ∨ scaled_height item ro = .pinf) ∧
    (scaled_width item ro = .nan ∨ scaled_height item ro = .nan) ∧
    crop_resize_with item ro = placed item ro item.width item.height := by
  have hp : proportion item ro = .pinf := by
    unfold proportion
    by_cases h0 : content_width item = 0
    · by_cases h1 : content_height item = 0
      · simp [h0, h1, JSNum.div, JSNum.ofSign, JSNum.sgn, JSNum.ge, hH.ne.symm, hH]
      · have hpos : 0 ≤ ro.width / ro.height := (div_pos hW hH).le
        simp [h0, h1, JSNum.div, JSNum.ofSign, JSNum.sgn, JSNum.ge, hH.ne.symm, hW, hpos]
    · have h1 : content_height item = 0 := by
        rcases hz with h | h
        · exact absurd h h0
        · exact h
      have hcw' : 0 < content_width item := lt_of_le_of_ne hcw (Ne.symm h0)
      simp [h0, h1, JSNum.div, JSNum.ofSign, JSNum.sgn, JSNum.ge, hH.ne.symm, hH, hcw']
  have ht : JSNum.truthy (proportion item ro) = true := by rw [hp]; rfl
  have key : ∀ c : ℚ, 0 ≤ c →
      (JSNum.round (JSNum.mul .pinf (.fin c)) = .nan ∨
        JSNum.round (JSNum.mul .pinf (.fin c)) = .pinf) ∧
      (c = 0 → JSNum.round (JSNum.mul .pinf (.fin c)) = .nan) := by
    intro c hc
    by_cases h0 : c = 0
    · subst h0
      refine ⟨Or.inl ?_, fun _ => ?_⟩ <;> simp [JSNum.mul, JSNum.ofSign, JSNum.sgn, JSNum.round]
    · have hpos : 0 < c := lt_of_le_of_ne hc (Ne.symm h0)
      refine ⟨Or.inr ?_, fun h => absurd h h0⟩
      simp [JSNum.mul, JSNum.ofSign, JSNum.sgn, JSNum.round, hpos]
  have hw : scaled_width item ro = .nan ∨ scaled_width item ro = .pinf := by
    unfold scaled_width
    rw [hp]
    exact (key _ hcw).1
  have hh : scaled_height item ro = .nan ∨ scaled_height item ro = .pinf := by
    unfold scaled_height
    rw [hp]
    exact (key _ hch).1
  refine ⟨hp, ht, hw, hh, ?_, crop_resize_with_not_finite item ro ht hw hh⟩
  rcases hz with h | h
  · left
    unfold scaled_width
    rw [hp]
    exact (key _ hcw).2 h
  · right
    unfold scaled_height
    rw [hp]
    exact (key _ hch).2 h

/-- C11 fails on the code: for an image whose picture has not loaded (a 0x0
box) against the 800x600 target the scale factor is +Infinity, not 0 or NaN,
so the guard lets the call through: `NaN` is handed to both `width()` and
`height()`, and `top` and `left` go from `auto` to 300px and 400px.  Likewise
for a 0x1080 element: `NaN` goes to `width()`, `Infinity` to `height()`, and
all four offsets change. -/
theorem crop_resize_zero_content_not_noop :
    (content_width unloaded_img = 0 ∧ content_height unloaded_img = 0 ∧
      proportion unloaded_img (resize_options player0 none) = .pinf ∧
      scaled_width unloaded_img (resize_options player0 none) = .nan ∧
      scaled_height unloaded_img (resize_options player0 none) = .nan ∧
      crop_resize player0 unloaded_img none =
        { unloaded_img with top := .px 300, left := .px 400 } ∧
      crop_resize player0 unloaded_img none ≠ unloaded_img) ∧
    (content_width zero_width_item = 0 ∧ content_height zero_width_item = 1080 ∧
      proportion zero_width_item (resize_options player0 none) = .pinf ∧
      scaled_width zero_width_item (resize_options player0 none) = .nan ∧
      scaled_height zero_width_item (resize_options player0 none) = .pinf ∧
      crop_resize player0 zero_width_item none =
        { zero_width_item with
          top := .px (-240), bottom := .auto, left := .px 400, right := .auto } ∧
      crop_resize player0 zero_width_item none ≠ zero_width_item) := by
  have hro : resize_options player0 none = ⟨800, 600, "center", "center"⟩ := by decide
  have c1 : ¬ ("center" = "top") := by decide
  have c2 : ¬ ("center" = "bottom") := by decide
  have c3 : ¬ ("center" = "left") := by decide
  have c4 : ¬ ("center" = "right") := by decide
  rw [hro]
  unfold crop_resize
  rw [hro]
  constructor
  · have hcw : content_width unloaded_img = 0 := by decide
    have hch : content_height unloaded_img = 0 := by decide
    obtain ⟨hp, _, _, _, _, he⟩ := crop_resize_with_zero_content unloaded_img
      ⟨800, 600, "center", "center"⟩ (by rw [hcw]) (by rw [hch]) (Or.inl hcw)
      (by norm_num) (by norm_num)
    have hsw : scaled_width unloaded_img ⟨800, 600, "center", "center"⟩ = .nan := by
      unfold scaled_width
      rw [hp, hcw]
      simp [JSNum.mul, JSNum.ofSign, JSNum.sgn, JSNum.round]
    have hsh : scaled_height unloaded_img ⟨800, 600, "center", "center"⟩ = .nan := by
      unfold scaled_height
      rw [hp, hch]
      simp [JSNum.mul, JSNum.ofSign, JSNum.sgn, JSNum.round]
    have hres : crop_resize_with unloaded_img ⟨800, 600, "center", "center"⟩ =
        { unloaded_img with top := .px 300, left := .px 400 } := by
      rw [he]
      simp only [placed, if_neg c1, if_neg c2, if_neg c3, if_neg c4]
      show ({ videoWidth := 0, videoHeight := 0, width := 0, height := 0
              top := .px (((0 : ℚ) - 600) / (-2)), bottom := .auto
              left := .px (((0 : ℚ) - 800) / (-2)), right := .auto } : Element) = _
      norm_num
      exact ⟨rfl, rfl, rfl, rfl, rfl, rfl⟩
    refine ⟨hcw, hch, hp, hsw, hsh, hres, ?_⟩
    rw [hres]
    intro h
    have := congrArg Element.top h
    simp [unloaded_img] at this
  · have hcw : content_width zero_width_item = 0 := by decide
    have hch : content_height zero_width_item = 1080 := by decide
    obtain ⟨hp, _, _, _, _, he⟩ := crop_resize_with_zero_content zero_width_item
      ⟨800, 600, "center", "center"⟩ (by rw [hcw]) (by rw [hch]; norm_num) (Or.inl hcw)
      (by norm_num) (by norm_num)
    have hsw : scaled_width zero_width_item ⟨800, 600, "center", "center"⟩ = .nan := by
      unfold scaled_width
      rw [hp, hcw]
      simp [JSNum.mul, JSNum.ofSign, JSNum.sgn, JSNum.round]
    have hsh : scaled_height zero_width_item ⟨800, 600, "center", "center"⟩ = .pinf := by
      unfold scaled_height
      rw [hp, hch]
      simp [JSNum.mul, JSNum.ofSign, JSNum.sgn, JSNum.round]
    have hres : crop_resize_with zero_width_item ⟨800, 600, "center", "center"⟩ =
        { zero_width_item with
          top := .px (-240), bottom := .auto, left := .px 400, right := .auto } := by
      rw [he]
      simp only [placed, if_neg c1, if_neg c2, if_neg c3, if_neg c4]
      show ({ videoWidth := 0, videoHeight := 0, width := 0, height := 1080
              top := .px (((1080 : ℚ) - 600) / (-2)), bottom := .auto
              left := .px (((0 : ℚ) - 800) / (-2)), right := .auto } : Element) = _
      norm_num
      exact ⟨rfl, rfl, rfl, rfl⟩
    refine ⟨hcw, hch, hp, hsw, hsh, hres, ?_⟩
    rw [hres]
    intro h
    have := congrArg Element.bottom h
    simp [zero_width_item] at this

/-! ## Offsets -/

/-- A quotient of finite numbers is finite only when the divisor is not 0. -/
theorem div_fin_eq_fin (a b p : ℚ) (h : JSNum.div (.fin a) (.fin b) = .fin p) :
    b ≠ 0 ∧ p = a / b := by
  by_cases hb : b = 0
  · exfalso
    simp only [JSNum.div, hb, if_true, JSNum.ofSign] at h
    split_ifs at h
  · simp only [JSNum.div, hb, if_false] at h
    exact ⟨hb, (JSNum.fin.inj h).symm⟩

/-- A finite scale factor of non-negative sizes is not negative. -/
theorem proportion_fin_nonneg (item : Element) (ro : ResizeOptions) (p : ℚ)
    (hp : proportion item ro = .fin p)
    (hcw : 0 ≤ content_width item) (hch : 0 ≤ content_height item)
    (hW : 0 ≤ ro.width) (hH : 0 ≤ ro.height) : 0 ≤ p := by
  unfold proportion at hp
  simp only at hp
  split_ifs at hp
  · rw [(div_fin_eq_fin _ _ _ hp).2]
    exact div_nonneg hW hcw
  · rw [(div_fin_eq_fin _ _ _ hp).2]
    exact div_nonneg hH hch

/-- With a finite nonzero scale factor `p` of non-negative sizes, the sizes
handed to the setters are the whole numbers `w1`, `h1`, and the element is
placed at that size. -/
theorem crop_resize_with_finite (item : Element) (ro : ResizeOptions) (p : ℚ)
    (hp : proportion item ro = .fin p) (hp0 : p ≠ 0)
    (hcw : 0 ≤ content_width item) (hch : 0 ≤ content_height item)
    (hW : 0 ≤ ro.width) (hH : 0 ≤ ro.height) :
    ∃ w1 h1 : Int,
      scaled_width item ro = .fin w1 ∧ scaled_height item ro = .fin h1 ∧
      crop_resize_with item ro = placed item ro w1 h1 := by
  have hpos := proportion_fin_nonneg item ro p hp hcw hch hW hH
  have hw : 0 ≤ JSNum.roundQ (p * content_width item) :=
    le_roundQ_of_le 0 _ (by exact_mod_cast mul_nonneg hpos hcw)
  have hh : 0 ≤ JSNum.roundQ (p * content_height item) :=
    le_roundQ_of_le 0 _ (by exact_mod_cast mul_nonneg hpos hch)
  refine ⟨JSNum.roundQ (p * content_width item), JSNum.roundQ (p * content_height item),
    ?_, ?_, crop_resize_with_eq_placed item ro p hp hp0 hw hh⟩
  · unfold scaled_width
    rw [hp]
    rfl
  · unfold scaled_height
    rw [hp]
    rfl

/-- C7 (amended): for non-negative content and target sizes with a finite
nonzero scale factor, `crop_resize` hands whole sizes `w1`, `h1` to the
setters, the element takes them, and its offsets are cleared except for the
anchors': a left (right, top, bottom) anchor puts 0 on that edge, any other
anchor puts `-(w1 - target width)/2` on `left` and `-(h1 - target height)/2`
on `top`, each axis on its own.  The 1920x1080 poster against the 800x600
target with center anchors is scaled by 600/1080 (height-fill) to 1067x600 and
gets `left` = -133.5px. -/
theorem crop_resize_positions :
    (∀ (item : Element) (ro : ResizeOptions) (p : ℚ),
      proportion item ro = .fin p → p ≠ 0 →
      0 ≤ content_width item → 0 ≤ content_height item →
      0 ≤ ro.width → 0 ≤ ro.height →
      ∃ w1 h1 : Int,
        (scaled_width item ro = .fin w1 ∧ scaled_height item ro = .fin h1) ∧
        ((crop_resize_with item ro).width = w1 ∧ (crop_resize_with item ro).height = h1) ∧
        (ro.horizontal = "left" →
          (crop_resize_with item ro).left = .px 0 ∧
          (crop_resize_with item ro).right = .auto) ∧
        (ro.horizontal = "right" →
          (crop_resize_with item ro).right = .px 0 ∧
          (crop_resize_with item ro).left = .auto) ∧
        (ro.horizontal ≠ "left" → ro.horizontal ≠ "right" →
          (crop_resize_with item ro).left = .px (-((w1 : ℚ) - ro.width) / 2) ∧
          (crop_resize_with item ro).right = .auto) ∧
        (ro.vertical = "top" →
          (crop_resize_with item ro).top = .px 0 ∧
          (crop_resize_with item ro).bottom = .auto) ∧
        (ro.vertical = "bottom" →
          (crop_resize_with item ro).bottom = .px 0 ∧
          (crop_resize_with item ro).top = .auto) ∧
        (ro.vertical ≠ "top" → ro.vertical ≠ "bottom" →
          (crop_resize_with item ro).top = .px (-((h1 : ℚ) - ro.height) / 2) ∧
          (crop_resize_with item ro).bottom = .auto)) ∧
    (proportion poster0.box (resize_options player0 none) = .fin (600 / 1080) ∧
      scaled_width poster0.box (resize_options player0 none) = .fin 1067 ∧
      scaled_height poster0.box (resize_options player0 none) = .fin 600 ∧
      crop_resize player0 poster0.box none =
        { videoWidth := 0, videoHeight := 0, width := 1067, height := 600
          top := .px 0, bottom := .auto, left := .px (-133.5), right := .auto }) := by
  constructor
  · intro item ro p hp hp0 hcw hch hW hH
    obtain ⟨w1, h1, hsw, hsh, he⟩ := crop_resize_with_finite item ro p hp hp0 hcw hch hW hH
    refine ⟨w1, h1, ⟨hsw, hsh⟩, ?_⟩
    rw [he]
    have hne1 : ¬ ("left" = "right") := by decide
    have hne2 : ¬ ("top" = "bottom") := by decide
    have hne3 : ¬ ("right" = "left") := by decide
    have hne4 : ¬ ("bottom" = "top") := by decide
    refine ⟨⟨rfl, rfl⟩, ?_, ?_, ?_, ?_, ?_, ?_⟩
    · intro c
      simp only [placed, c, if_true, if_neg hne1]
      exact ⟨trivial, trivial⟩
    · intro c
      simp only [placed, c, if_true, if_neg hne3]
      exact ⟨trivial, trivial⟩
    · intro c1 c2
      simp only [placed, if_neg c1, if_neg c2]
      refine ⟨?_, trivial⟩
      congr 1
      ring
    · intro c
      simp only [placed, c, if_true, if_neg hne2]
      exact ⟨trivial, trivial⟩
    · intro c
      simp only [placed, c, if_true, if_neg hne4]
      exact ⟨trivial, trivial⟩
    · intro c1 c2
      simp only [placed, if_neg c1, if_neg c2]
      refine ⟨?_, trivial⟩
      congr 1
      ring
  · have hro : resize_options player0 none = ⟨800, 600, "center", "center"⟩ := by decide
    have hcw : content_width poster0.box = 1920 := by decide
    have hch : content_height poster0.box = 1080 := by decide
    unfold crop_resize
    rw [hro]
    have hfill := crop_resize_with_height_fill poster0.box ⟨800, 600, "center", "center"⟩
      (by rw [hcw]; norm_num) (by rw [hch]; norm_num) (by norm_num) (by norm_num)
      (by rw [hcw, hch]; norm_num)
    obtain ⟨hp, _, _, he⟩ := hfill
    simp only [hcw, hch] at hp he
    have r1 : JSNum.roundQ ((600 : ℚ) / 1080 * 1920) = 1067 := by
      rw [roundQ_eq_iff]
      norm_num
    have r2 : JSNum.roundQ ((600 : ℚ) / 1080 * 1080) = 600 := by
      rw [roundQ_eq_iff]
      norm_num
    have r3 : JSNum.roundQ (600 : ℚ) = 600 := by
      rw [roundQ_eq_iff]
      norm_num
    refine ⟨hp, ?_, ?_, ?_⟩
    · unfold scaled_width
      rw [hp, hcw]
      show JSNum.fin ((JSNum.roundQ ((600 : ℚ) / 1080 * 1920) : Int) : ℚ) = _
      rw [r1]
      norm_num
    · unfold scaled_height
      rw [hp, hch]
      show JSNum.fin ((JSNum.roundQ ((600 : ℚ) / 1080 * 1080) : Int) : ℚ) = _
      rw [r2]
      norm_num
    · rw [he, r1, r3]
      have c1 : ¬ ("center" = "top") := by decide
      have c2 : ¬ ("center" = "bottom") := by decide
      have c3 : ¬ ("center" = "left") := by decide
      have c4 : ¬ ("center" = "right") := by decide
      simp only [if_neg c1, if_neg c2, if_neg c3, if_neg c4]
      show ({ videoWidth := 0, videoHeight := 0, width := ((1067 : Int) : ℚ)
              height := ((600 : Int) : ℚ)
              top := .px ((((600 : Int) : ℚ) - 600) / (-2)), bottom := .auto
              left := .px ((((1067 : Int) : ℚ) - 800) / (-2)), right := .auto } : Element) = _
      norm_num

/-- The witness of C7 (amended): the 1280x720 video, scaled by 600/720 into
the 800x600 window and anchored at the center. -/
theorem crop_resize_positions_witness :
    ∃ w1 h1 : Int,
      (scaled_width player_hd.video.box (resize_options player_hd none) = .fin w1 ∧
        scaled_height player_hd.video.box (resize_options player_hd none) = .fin h1) ∧
      ((crop_resize_with player_hd.video.box (resize_options player_hd none)).width = w1 ∧
        (crop_resize_with player_hd.video.box (resize_options player_hd none)).height = h1) ∧
      (crop_resize_with player_hd.video.box (resize_options player_hd none)).left =
        .px (-((w1 : ℚ) - (resize_options player_hd none).width) / 2) ∧
      (crop_resize_with player_hd.video.box (resize_options player_hd none)).top =
        .px (-((h1 : ℚ) - (resize_options player_hd none).height) / 2) := by
  have hcw : content_width player_hd.video.box = 1280 := by decide
  have hch : content_height player_hd.video.box = 720 := by decide
  have hW : (resize_options player_hd none).width = 800 := by decide
  have hH : (resize_options player_hd none).height = 600 := by decide
  have hp := (crop_resize_with_height_fill player_hd.video.box (resize_options player_hd none)
    (by decide) (by decide) (by decide) (by decide)
    (by rw [hcw, hch, hW, hH]; norm_num)).1
  obtain ⟨w1, h1, hs, hsz, _, _, hl, _, _, ht⟩ :=
    crop_resize_positions.1 player_hd.video.box (resize_options player_hd none) _ hp
      (by rw [hch, hH]; norm_num) (by decide) (by decide) (by decide) (by decide)
  exact ⟨w1, h1, hs, hsz, (hl (by decide) (by decide)).1, (ht (by decide) (by decide)).1⟩

/-- C7 as stated fails: against the 800x600 target with center anchors, the
image whose picture has not loaded has the scale factor +Infinity, which is
not zero; the scaled width is NaN, so the offset the claim computes from it is
NaN, yet `crop_resize` sets `left` to 400px and `top` to 300px, from the width
and height it reads back from the element. -/
theorem crop_resize_offset_not_from_scaled_size :
    proportion unloaded_img (resize_options player0 none) = .pinf ∧
    JSNum.truthy (proportion unloaded_img (resize_options player0 none)) = true ∧
    (resize_options player0 none).horizontal = "center" ∧
    (resize_options player0 none).vertical = "center" ∧
    scaled_width unloaded_img (resize_options player0 none) = .nan ∧
    scaled_height unloaded_img (resize_options player0 none) = .nan ∧
    spec_center_offset (scaled_width unloaded_img (resize_options player0 none))
      (.fin (resize_options player0 none).width) = .nan ∧
    spec_center_offset (scaled_height unloaded_img (resize_options player0 none))
      (.fin (resize_options player0 none).height) = .nan ∧
    (crop_resize player0 unloaded_img none).left = .px 400 ∧
    (crop_resize player0 unloaded_img none).top = .px 300 := by
  have hro : resize_options player0 none = ⟨800, 600, "center", "center"⟩ := by decide
  have c1 : ¬ ("center" = "top") := by decide
  have c2 : ¬ ("center" = "bottom") := by decide
  have c3 : ¬ ("center" = "left") := by decide
  have c4 : ¬ ("center" = "right") := by decide
  unfold crop_resize
  rw [hro]
  have hcw : content_width unloaded_img = 0 := by decide
  have hch : content_height unloaded_img = 0 := by decide
  obtain ⟨hp, ht, _, _, _, he⟩ := crop_resize_with_zero_content unloaded_img
    ⟨800, 600, "center", "center"⟩ (by rw [hcw]) (by rw [hch]) (Or.inl hcw)
    (by norm_num) (by norm_num)
  have hsw : scaled_width unloaded_img ⟨800, 600, "center", "center"⟩ = .nan := by
    unfold scaled_width
    rw [hp, hcw]
    simp [JSNum.mul, JSNum.ofSign, JSNum.sgn, JSNum.round]
  have hsh : scaled_height unloaded_img ⟨800, 600, "center", "center"⟩ = .nan := by
    unfold scaled_height
    rw [hp, hch]
    simp [JSNum.mul, JSNum.ofSign, JSNum.sgn, JSNum.round]
  refine ⟨hp, ht, rfl, rfl, hsw, hsh, ?_, ?_, ?_, ?_⟩
  · rw [hsw]
    rfl
  · rw [hsh]
    rfl
  · rw [he]
    simp only [placed, if_neg c3, if_neg c4]
    show CssVal.px (((0 : ℚ) - 800) / (-2)) = _
    norm_num
  · rw [he]
    simp only [placed, if_neg c1, if_neg c2]
    show CssVal.px (((0 : ℚ) - 600) / (-2)) = _
    norm_num

end APlayer
